import Mathlib

/-!
# Verification of the ATLAS intent-execution engine core

Shallow embedding of the reliability pipeline of the ATLAS repository
(`apps/api/src/atlas`): the fallback manager, the executor's intent
classification loop and receipt finalization, the JSON normalizer, the
intent validator, the task tools and skills, and the receipts store.
Each definition is translated from the corresponding Python source;
theorems settle the specification claims against those definitions.
-/

namespace Atlas

/-! ## Core enums (from `atlas/core/models.py`) -/

/-- `IntentType` from `core/models.py`: allowed intent types. -/
inductive IntentType where
  | CAPTURE_TASKS
  | PLAN_DAY
  | PROCESS_MEETING_NOTES
  | SEARCH_SUMMARIZE
  | BUILD_WORKFLOW
  | UNKNOWN
deriving DecidableEq, Repr

/-- `RiskLevel` from `core/models.py`. -/
inductive RiskLevel where
  | LOW
  | MEDIUM
  | HIGH
deriving DecidableEq, Repr

/-- `JobClass` from `core/models.py`. -/
inductive JobClass where
  | INTENT_ROUTING
  | PLANNING
  | EXTRACTION
  | SUMMARIZATION
  | WORKFLOW_BUILDING
deriving DecidableEq, Repr

/-- `RoutingProfile` from `core/models.py`. -/
inductive RoutingProfile where
  | OFFLINE
  | BALANCED
  | ACCURACY
deriving DecidableEq, Repr

/-- `FallbackTrigger` from `core/models.py`. -/
inductive FallbackTrigger where
  | INVALID_JSON
  | VALIDATION_ERROR
  | TIMEOUT
  | RATE_LIMIT
  | PROVIDER_DOWN
  | CAPABILITY_MISMATCH
deriving DecidableEq, Repr

/-- `ToolCallStatus` from `core/models.py`. -/
inductive ToolCallStatus where
  | PENDING_CONFIRM
  | OK
  | FAILED
  | SKIPPED
deriving DecidableEq, Repr

/-- `ReceiptStatus` from `core/models.py`. -/
inductive ReceiptStatus where
  | SUCCESS
  | PARTIAL
  | FAILED
  | PENDING_CONFIRM
deriving DecidableEq, Repr

/-- `ModelAttempt` from `core/models.py` (timestamps omitted; they carry no
logic). `latency_ms` is kept as recorded by the executor. -/
structure ModelAttempt where
  provider : String
  model : String
  attempt_number : Nat
  success : Bool
  fallback_trigger : Option FallbackTrigger
  latency_ms : Option Nat
deriving DecidableEq, Repr

/-- The `(provider, model)` pair of an attempt, as formed at
`manager.py:157` and `manager.py:161`. -/
def attemptPair (a : ModelAttempt) : String × String :=
  (a.provider, a.model)

/-! ## Fallback manager (from `atlas/core/fallback/manager.py`) -/

/-- `FallbackAction` from `core/fallback/manager.py`. -/
inductive FallbackAction where
  | RETRY_SAME_MODEL
  | FALLBACK_NEXT_MODEL
  | FAIL
deriving DecidableEq, Repr

/-- `FallbackDecision` from `core/fallback/manager.py`. `reason` strings are
kept but their interpolated details are abbreviated. -/
structure FallbackDecision where
  action : FallbackAction
  reason : String
  next_provider : Option String
  next_model : Option String
  use_repair_prompt : Bool
deriving DecidableEq, Repr

/-- `FallbackManager` state: the two caps and the chain table
(`_chains`, total after `_set_defaults`). -/
structure FallbackManager where
  max_attempts_per_model : Nat
  max_models_per_request : Nat
  chains : RoutingProfile → JobClass → List (String × String)

/-- `FallbackManager.get_model_chain`: the chain truncated to
`max_models_per_request` entries (`manager.py:115`). After `__init__` the
chain table is total, so the `None` branch is unreachable. -/
def FallbackManager.getModelChain (fm : FallbackManager) (profile : RoutingProfile)
    (jobClass : JobClass) : List (String × String) :=
  (fm.chains profile jobClass).take fm.max_models_per_request

/-- `FallbackManager.decide` (`manager.py:131`), rule for rule:
empty history fails; a content-error trigger with fewer than
`max_attempts_per_model` attempts on the last pair retries with the repair
prompt; an exhausted distinct-pair budget fails; otherwise the first chain
pair not yet attempted is chosen, and failing that the decision is FAIL. -/
def FallbackManager.decide (fm : FallbackManager) (trigger : FallbackTrigger)
    (attempts : List ModelAttempt) (profile : RoutingProfile)
    (jobClass : JobClass) : FallbackDecision :=
  match attempts.getLast? with
  | none =>
      { action := .FAIL, reason := "No attempts recorded - invalid state",
        next_provider := none, next_model := none, use_repair_prompt := false }
  | some current_attempt =>
      let current_model := (current_attempt.provider, current_attempt.model)
      let current_model_attempts :=
        (attempts.filter (fun a => attemptPair a = current_model)).length
      if current_model_attempts < fm.max_attempts_per_model ∧
          (trigger = .INVALID_JSON ∨ trigger = .VALIDATION_ERROR) then
        { action := .RETRY_SAME_MODEL, reason := "Retry with repair prompt",
          next_provider := some current_attempt.provider,
          next_model := some current_attempt.model,
          use_repair_prompt := true }
      else
        let chain := fm.getModelChain profile jobClass
        let unique_models_tried := (attempts.map attemptPair).dedup
        if fm.max_models_per_request ≤ unique_models_tried.length then
          { action := .FAIL, reason := "Exhausted all models",
            next_provider := none, next_model := none, use_repair_prompt := false }
        else
          match chain.find? (fun pm => ¬ pm ∈ unique_models_tried) with
          | some pm =>
              { action := .FALLBACK_NEXT_MODEL, reason := "Falling back to next model",
                next_provider := some pm.1, next_model := some pm.2,
                use_repair_prompt := false }
          | none =>
              { action := .FAIL, reason := "No more models in chain to try",
                next_provider := none, next_model := none, use_repair_prompt := false }

/-- The default chain table built in `FallbackManager.__init__`
(`manager.py:65`) followed by `_set_defaults` (`manager.py:101`): the
missing profile/job combinations inherit the profile's INTENT_ROUTING
chain. -/
def defaultChains : RoutingProfile → JobClass → List (String × String)
  | .OFFLINE, _ =>
      [("ollama", "llama3.2:1b"), ("ollama", "llama3.2"), ("ollama", "mistral")]
  | .BALANCED, .EXTRACTION =>
      [("openai", "gpt-4o-mini"), ("ollama", "llama3.2:1b")]
  | .BALANCED, _ =>
      [("openai", "gpt-4o-mini"), ("openai", "gpt-4o"), ("ollama", "llama3.2:1b")]
  | .ACCURACY, .PLANNING =>
      [("openai", "gpt-4o"), ("openai", "gpt-4o-mini")]
  | .ACCURACY, .EXTRACTION =>
      [("openai", "gpt-4o"), ("openai", "gpt-4o-mini")]
  | .ACCURACY, _ =>
      [("openai", "gpt-4o"), ("openai", "gpt-4o-mini"), ("ollama", "llama3.2:1b")]

/-- A `FallbackManager()` with the `__init__` defaults:
`max_attempts_per_model = 2`, `max_models_per_request = 3`, default chains. -/
def defaultFallbackManager : FallbackManager :=
  { max_attempts_per_model := 2, max_models_per_request := 3, chains := defaultChains }

/-! ## The spec's decision procedure (for claim C2) -/

/-- Observable content of a fallback decision: action, chosen pair, repair flag. -/
structure SpecDecision where
  action : FallbackAction
  next : Option (String × String)
  use_repair_prompt : Bool
deriving DecidableEq, Repr

/-- The `(next_provider, next_model)` fields of a code decision, paired. -/
def FallbackDecision.nextPair (d : FallbackDecision) : Option (String × String) :=
  match d.next_provider, d.next_model with
  | some p, some m => some (p, m)
  | _, _ => none

/-- Written from the spec's words (§4.5 decision function), not from the
code: 1. empty attempts fail; 2. `current = attempts[-1]`, `n` = number of
attempts with the same `(provider, model)`; 3. `n < 2` and a content
trigger retry the same model with the repair prompt; 4. 3 or more unique
pairs across attempts fail; 5. the first chain pair not yet attempted is
the fallback; 6. otherwise fail. -/
def specDecide (chain : List (String × String)) (trigger : FallbackTrigger)
    (attempts : List ModelAttempt) : SpecDecision :=
  match attempts.getLast? with
  | none => { action := .FAIL, next := none, use_repair_prompt := false }
  | some current =>
      let n := attempts.countP
        (fun a => a.provider = current.provider ∧ a.model = current.model)
      if n < 2 ∧ (trigger = .INVALID_JSON ∨ trigger = .VALIDATION_ERROR) then
        { action := .RETRY_SAME_MODEL,
          next := some (current.provider, current.model), use_repair_prompt := true }
      else if 3 ≤ ((attempts.map attemptPair).toFinset.card) then
        { action := .FAIL, next := none, use_repair_prompt := false }
      else
        match chain.find? (fun pm => ∀ a ∈ attempts, attemptPair a ≠ pm) with
        | some pm =>
            { action := .FALLBACK_NEXT_MODEL, next := some pm,
              use_repair_prompt := false }
        | none => { action := .FAIL, next := none, use_repair_prompt := false }

/-- The observable content of a code decision. -/
def FallbackDecision.observable (d : FallbackDecision) : SpecDecision :=
  { action := d.action, next := d.nextPair, use_repair_prompt := d.use_repair_prompt }

/-! ## Executor attempt loop (from `atlas/engine/executor.py`, `_classify_intent`)

The loop is driven by the environment: each iteration either finds the
provider missing (`executor.py:181`), gets a completion that fails
normalization (`executor.py:234`) or validation (`executor.py:269`), raises
a rate-limit or provider error (`executor.py:312`), raises an unexpected
error (`executor.py:347`), or classifies successfully (`executor.py:300`).
An `AttemptOutcome` abstracts one iteration's environment behaviour. -/

/-- One iteration's environment behaviour in `_classify_intent`. -/
inductive AttemptOutcome where
  | providerMissing
  | invalidJson
  | validationError
  | rateLimit
  | providerDown
  | unexpectedError
  | classified
deriving DecidableEq, Repr

/-- The `fallback_trigger` recorded for an outcome, per the corresponding
branch of `_classify_intent`. -/
def outcomeTrigger : AttemptOutcome → Option FallbackTrigger
  | .providerMissing => some .PROVIDER_DOWN
  | .invalidJson => some .INVALID_JSON
  | .validationError => some .VALIDATION_ERROR
  | .rateLimit => some .RATE_LIMIT
  | .providerDown => some .PROVIDER_DOWN
  | .unexpectedError => some .PROVIDER_DOWN
  | .classified => none

/-- `len([a for a in attempts if a.provider == p and a.model == m])`
(`executor.py:186` and `executor.py:209`). -/
def countPairAttempts (pm : String × String) (attempts : List ModelAttempt) : Nat :=
  (attempts.filter (fun a => a.provider = pm.1 ∧ a.model = pm.2)).length

/-- Python's `new or old` on an optional string: `None` and the empty
string are falsy (`executor.py:204`, `provider_name = decision.next_provider
or provider_name`). -/
def pyOrStr (new : Option String) (old : String) : String :=
  match new with
  | some s => if s = "" then old else s
  | none => old

/-- The attempt record appended for one iteration of `_classify_intent`
at the working pair `pm`, with `attempt_number` counted per pair. -/
def mkAttempt (pm : String × String) (n : Nat) (o : AttemptOutcome) : ModelAttempt :=
  { provider := pm.1, model := pm.2, attempt_number := n,
    success := o = .classified, fallback_trigger := outcomeTrigger o,
    latency_ms := none }

/-- The `while True` loop of `_classify_intent` (`executor.py:178`): record
an attempt for the working pair; on success return; otherwise consult
`fallback.decide`, stop on FAIL, else continue at the decision's pair
(Python `or` keeping the old component when the new one is falsy). The
returned list is `receipt.models_attempted`, to which the loop appends
exactly its `attempts` list. The scripted `outcomes` ending means the
environment stops the request there. -/
def classifyLoop (fm : FallbackManager) (profile : RoutingProfile) :
    List AttemptOutcome → String × String → List ModelAttempt → List ModelAttempt
  | [], _, attempts => attempts
  | o :: rest, pm, attempts =>
      let att := mkAttempt pm (countPairAttempts pm attempts + 1) o
      let attempts' := attempts ++ [att]
      if o = .classified then attempts'
      else
        let trigger := (outcomeTrigger o).getD .PROVIDER_DOWN
        let d := fm.decide trigger attempts' profile .INTENT_ROUTING
        if d.action = .FAIL then attempts'
        else classifyLoop fm profile rest
          (pyOrStr d.next_provider pm.1, pyOrStr d.next_model pm.2) attempts'

/-- `receipt.models_attempted` after `_classify_intent` run from scratch. -/
def modelsAttempted (fm : FallbackManager) (profile : RoutingProfile)
    (outcomes : List AttemptOutcome) (start : String × String) : List ModelAttempt :=
  classifyLoop fm profile outcomes start []

/-- Occurrence count of one pair in a pair list, as a filter length. -/
def pairCount (q : String × String) (l : List (String × String)) : Nat :=
  (l.filter (fun x => x = q)).length

/-! ## JSON values

Python-side JSON data (the payload of `json.loads`, tool args, intent
parameters) as a tree. Numbers are idealized as exact decimals
`mant * 10 ^ exp10`; the float-rounding of the host language is outside
the embedding. -/

/-- An exact decimal number `mant * 10 ^ exp10`. The representation is not
canonical; semantic comparisons go through `PyNum.le` and friends. -/
structure PyNum where
  mant : Int
  exp10 : Int
deriving DecidableEq, Repr

/-- Semantic order on decimals, by scaling to the common exponent. -/
def PyNum.le (a b : PyNum) : Bool :=
  if a.exp10 ≤ b.exp10 then
    a.mant ≤ b.mant * (10 : Int) ^ (b.exp10 - a.exp10).toNat
  else
    a.mant * (10 : Int) ^ (a.exp10 - b.exp10).toNat ≤ b.mant

/-- Semantic strict order on decimals. -/
def PyNum.lt (a b : PyNum) : Bool :=
  if a.exp10 ≤ b.exp10 then
    a.mant < b.mant * (10 : Int) ^ (b.exp10 - a.exp10).toNat
  else
    a.mant * (10 : Int) ^ (a.exp10 - b.exp10).toNat < b.mant

/-- The decimal written `n`. -/
def PyNum.ofInt (n : Int) : PyNum := ⟨n, 0⟩

/-- A JSON value as handled by the Python code. -/
inductive JVal where
  | jnull
  | jbool (b : Bool)
  | jnum (n : PyNum)
  | jstr (s : String)
  | jarr (elems : List JVal)
  | jobj (entries : List (String × JVal))
deriving Repr

/-- Python dict `get` on an insertion-ordered mapping. -/
def dictGet (d : List (String × JVal)) (k : String) : Option JVal :=
  List.lookup k d

/-- Python dict item assignment: replace the first binding in place or
append a new one, preserving insertion order. -/
def dictSet (d : List (String × JVal)) (k : String) (v : JVal) : List (String × JVal) :=
  match d with
  | [] => [(k, v)]
  | (k', v') :: rest =>
      if k' = k then (k, v) :: rest else (k', v') :: dictSet rest k v

/-! ## Receipt data model (from `atlas/core/models.py`) -/

/-- `ToolCall` from `core/models.py` (timestamp omitted). `result` is the
`Any | None` payload; `jnull` is Python `None`. -/
structure ToolCall where
  tool_name : String
  args : List (String × JVal)
  status : ToolCallStatus
  result : JVal
  error : Option String
deriving Repr

/-- `Change` from `core/models.py`; `before`/`after` are `dict | None`. -/
structure Change where
  entity_type : String
  entity_id : String
  action : String
  before : Option (List (String × JVal))
  after : Option (List (String × JVal))
deriving Repr

/-- `UndoStep` from `core/models.py`. -/
structure UndoStep where
  tool_name : String
  args : List (String × JVal)
  description : String
deriving Repr

/-- `Intent` from `core/models.py`. -/
structure Intent where
  type : IntentType
  confidence : PyNum
  parameters : List (String × JVal)
  raw_entities : List String
deriving Repr

/-- `Receipt` from `core/models.py` (timestamp omitted). -/
structure Receipt where
  receipt_id : String
  profile_id : Option String
  status : ReceiptStatus
  user_input : String
  models_attempted : List ModelAttempt
  intent_final : Option Intent
  tool_calls : List ToolCall
  changes : List Change
  undo : List UndoStep
  warnings : List String
  errors : List String
deriving Repr

/-- The receipt opened at `executor.py:101`: fresh id, status
PENDING_CONFIRM, everything else empty. -/
def freshReceipt (rid : String) (user_input : String) (profile_id : Option String) :
    Receipt :=
  { receipt_id := rid, profile_id := profile_id, status := .PENDING_CONFIRM,
    user_input := user_input, models_attempted := [], intent_final := none,
    tool_calls := [], changes := [], undo := [], warnings := [], errors := [] }

/-- `SkillResult` from `skills/base.py`. -/
structure SkillResult where
  success : Bool
  tool_calls : List ToolCall
  changes : List Change
  undo_steps : List UndoStep
  data : List (String × JVal)
  errors : List String
  warnings : List String
deriving Repr

/-- A `SkillResult(success=True)` with all defaults (`skills/base.py:41`). -/
def emptySkillResult : SkillResult :=
  { success := true, tool_calls := [], changes := [], undo_steps := [],
    data := [], errors := [], warnings := [] }

/-! ## Executor receipt finalization (from `executor.py:117` to `executor.py:146`) -/

/-- The merge-and-finalize block of `Executor.execute` once a skill result
came back (`executor.py:121` to `executor.py:134`): extend the receipt's
lists with the skill result's, then set the status from `skill_result.success`,
with the non-success status depending on Python truthiness of the merged
`receipt.tool_calls` list (non-empty, regardless of call status). -/
def applySkillResult (receipt : Receipt) (sr : SkillResult) : Receipt :=
  let merged : Receipt :=
    { receipt with
      tool_calls := receipt.tool_calls ++ sr.tool_calls,
      changes := receipt.changes ++ sr.changes,
      undo := receipt.undo ++ sr.undo_steps,
      warnings := receipt.warnings ++ sr.warnings,
      errors := if sr.errors = [] then receipt.errors else receipt.errors ++ sr.errors }
  { merged with
    status :=
      if sr.success then .SUCCESS
      else if merged.tool_calls.isEmpty then .FAILED else .PARTIAL }

/-- A FAILED `TASK_CREATE` tool call (concrete evaluation input). -/
def failedCreateCall : ToolCall :=
  { tool_name := "TASK_CREATE", args := [], status := .FAILED,
    result := .jnull, error := some "boom" }

/-- A PENDING_CONFIRM `CALENDAR_CREATE_BLOCKS` tool call (concrete
evaluation input, as produced by the dispatcher for an unconfirmed
MEDIUM-risk tool). -/
def pendingBlocksCall : ToolCall :=
  { tool_name := "CALENDAR_CREATE_BLOCKS", args := [],
    status := .PENDING_CONFIRM, result := .jnull, error := none }

/-- A failing skill result carrying one FAILED tool call. -/
def failSkillResultOneCall : SkillResult :=
  { success := false, tool_calls := [failedCreateCall], changes := [],
    undo_steps := [], data := [], errors := [], warnings := [] }

/-- A failing skill result with no tool calls. -/
def failSkillResultNoCalls : SkillResult :=
  { success := false, tool_calls := [], changes := [], undo_steps := [],
    data := [], errors := [], warnings := [] }

/-- A successful skill result whose only mutation attempt is pending
confirmation and which emitted no Change (the plan_day scenario of spec
§8 scenario 5). -/
def pendingSkillResult : SkillResult :=
  { success := true, tool_calls := [pendingBlocksCall], changes := [],
    undo_steps := [], data := [], errors := [], warnings := [] }

/-! ## Task tools (from `atlas/tools/tasks.py`) and the undo pairing (C5) -/

/-- `MCPResponse` from `mcp/client.py`. -/
structure MCPResponse where
  success : Bool
  data : Option (List (String × JVal))
  error : Option String
deriving Repr

/-- `ToolResult` from `tools/base.py`. -/
structure ToolResult where
  success : Bool
  data : List (String × JVal)
  changes : List Change
  undo_step : Option UndoStep
  error : Option String
deriving Repr

/-- Python truthiness of an optional response mapping: `None` and the empty
dict are falsy (`if response.success and response.data`). -/
def dictTruthy (d : Option (List (String × JVal))) : Bool :=
  match d with
  | none => false
  | some entries => !entries.isEmpty

/-- One stored task: its field mapping, as kept in the in-memory `_tasks`
store (`tasks.py:18`). -/
def TaskStore : Type := List (String × List (String × JVal))

/-- `TaskUpdateTool.execute` (`tasks.py:232`), with the environment made
explicit: `mcpResponse` is the MCP dashboard's answer to `task.update` and
`now` the `datetime.utcnow().isoformat()` timestamp. When the MCP call
succeeds with data, the tool reports an `updated` Change with **no**
`undo_step` (`tasks.py:246` to `tasks.py:258`); the local fallback pairs
the Change with a TASK_UPDATE undo step. -/
def taskUpdateExecute (task_id : Option String) (updates : List (String × JVal))
    (mcpResponse : MCPResponse) (tasks : TaskStore) (now : String) : ToolResult :=
  match task_id with
  | none =>
      { success := false, data := [], changes := [], undo_step := none,
        error := some "task_id is required" }
  | some tid =>
      if mcpResponse.success ∧ dictTruthy mcpResponse.data then
        { success := true,
          data := [("task_id", .jstr tid), ("updated", .jbool true),
            ("source", .jstr "mcp")],
          changes :=
            [⟨"task", tid, "updated", none, some (mcpResponse.data.getD [])⟩],
          undo_step := none,
          error := none }
      else
        match List.lookup tid tasks with
        | none =>
            { success := false, data := [], changes := [], undo_step := none,
              error := some "Task not found" }
        | some task =>
            let before := task
            let allowed := ["title", "description", "due_date", "priority",
              "tags", "status"]
            let updated := (updates.filter (fun kv => kv.1 ∈ allowed)).foldl
              (fun t kv => dictSet t kv.1 kv.2) task
            let updated := dictSet updated "updated_at" (.jstr now)
            { success := true,
              data := [("task_id", .jstr tid),
                ("before", .jobj (updates.map
                  (fun kv => (kv.1, (dictGet before kv.1).getD .jnull)))),
                ("after", .jobj (updates.map
                  (fun kv => (kv.1, (dictGet updated kv.1).getD .jnull)))),
                ("source", .jstr "local")],
              changes :=
                [⟨"task", tid, "updated", some before, some updated⟩],
              undo_step := some
                ⟨"TASK_UPDATE",
                  [("task_id", .jstr tid),
                    ("updates", .jobj (updates.map
                      (fun kv => (kv.1, (dictGet before kv.1).getD .jnull))))],
                  "Restore task to previous state"⟩,
              error := none }

/-- How a skill merges one tool result into its accumulating `SkillResult`
(`capture_tasks.py:101` to `capture_tasks.py:107`, same shape in every
skill): every Change in the result is appended, the undo step only when
present. -/
def mergeToolResult (sr : SkillResult) (tr : ToolResult) : SkillResult :=
  { sr with
    changes := sr.changes ++ tr.changes,
    undo_steps := sr.undo_steps ++
      (match tr.undo_step with | some u => [u] | none => []) }

/-- The set of Change actions the undo pairing is about. -/
def mutatingActions : List String := ["created", "updated", "deleted"]

/-- A successful MCP `task.update` response (concrete evaluation input). -/
def mcpOkUpdateResponse : MCPResponse :=
  { success := true, data := some [("task_id", .jstr "t1")], error := none }

/-! ## Python string and number helpers -/

/-- Python `str.strip()` whitespace (ASCII subset). -/
def isPySpace (c : Char) : Bool :=
  c = ' ' ∨ c = '\t' ∨ c = '\n' ∨ c = '\r' ∨ c = '\x0b' ∨ c = '\x0c'

/-- `str.strip()` on a character list. -/
def pyStripChars (cs : List Char) : List Char :=
  ((cs.dropWhile isPySpace).reverse.dropWhile isPySpace).reverse

/-- Accumulate a run of decimal digits: value, digit count, rest. -/
def digitsAux : Nat → Nat → List Char → Nat × Nat × List Char
  | acc, n, [] => (acc, n, [])
  | acc, n, c :: rest =>
      if c.isDigit then digitsAux (acc * 10 + (c.toNat - 48)) (n + 1) rest
      else (acc, n, c :: rest)

/-- An optional leading sign: the sign as `1` or `-1`, and the rest. -/
def signSplit : List Char → Int × List Char
  | '+' :: rest => (1, rest)
  | '-' :: rest => (-1, rest)
  | cs => (1, cs)

/-- Model of Python `float(str)` on finite decimal literals: optional
sign, digits with optional fraction, optional exponent. (`inf`, `nan` and
underscore separators are not modelled.) -/
def pyParseFloat (s : String) : Option PyNum :=
  let cs := pyStripChars s.toList
  let (sign, cs1) := signSplit cs
  let (ip, ipn, cs2) := digitsAux 0 0 cs1
  let (fp, fpn, cs3) :=
    match cs2 with
    | '.' :: rest => digitsAux 0 0 rest
    | _ => (0, 0, cs2)
  if ipn + fpn = 0 then none
  else
    let mant : Int := sign * (ip * 10 ^ fpn + fp)
    match cs3 with
    | [] => some ⟨mant, -(fpn : Int)⟩
    | e :: rest =>
        if e = 'e' ∨ e = 'E' then
          let (esign, rest1) := signSplit rest
          let (ev, en, rest2) := digitsAux 0 0 rest1
          if en = 0 ∨ ¬ rest2 = [] then none
          else some ⟨mant, esign * ev - (fpn : Int)⟩
        else none

/-- Python `float(value)` over a JSON value: numbers pass through, booleans
coerce to 1/0, strings parse as float literals; everything else raises
(`TypeError`) and yields `none`. -/
def pyFloat? : JVal → Option PyNum
  | .jnum n => some n
  | .jbool b => some (if b then ⟨1, 0⟩ else ⟨0, 0⟩)
  | .jstr s => pyParseFloat s
  | _ => none

/-! ## Validator (from `atlas/core/validator/validator.py`) -/

/-- `ValidationError` from `validator.py` (messages abbreviated; `field`
and `code` kept verbatim). -/
structure ValidationError where
  field : String
  message : String
  code : String
deriving DecidableEq, Repr

/-- `ValidationResult` from `validator.py`. -/
structure ValidationResult where
  valid : Bool
  errors : List ValidationError
  warnings : List String
  intent : Option Intent
  risk_level : RiskLevel
deriving Repr

/-- `IntentType(value)` on a string: the enum lookup. -/
def intentTypeOfString? (s : String) : Option IntentType :=
  if s = "CAPTURE_TASKS" then some .CAPTURE_TASKS
  else if s = "PLAN_DAY" then some .PLAN_DAY
  else if s = "PROCESS_MEETING_NOTES" then some .PROCESS_MEETING_NOTES
  else if s = "SEARCH_SUMMARIZE" then some .SEARCH_SUMMARIZE
  else if s = "BUILD_WORKFLOW" then some .BUILD_WORKFLOW
  else if s = "UNKNOWN" then some .UNKNOWN
  else none

/-- `Validator._validate_intent_type` (`validator.py:127`): `None` passes
through silently; a non-member (or non-string, which also raises
`ValueError` in `IntentType(...)`) records INVALID_INTENT_TYPE. -/
def validateIntentType (value : JVal) : Option IntentType × List ValidationError :=
  match value with
  | .jnull => (none, [])
  | .jstr s =>
      match intentTypeOfString? s with
      | some t => (some t, [])
      | none => (none, [⟨"type", "Invalid intent type", "INVALID_INTENT_TYPE"⟩])
  | _ => (none, [⟨"type", "Invalid intent type", "INVALID_INTENT_TYPE"⟩])

/-- `Validator._validate_confidence` (`validator.py:146`): `None` is a
MISSING_FIELD; a value `float(...)` accepts is range-checked inclusively;
a value it rejects is INVALID_TYPE. -/
def validateConfidence (value : JVal) : Option PyNum × List ValidationError :=
  match value with
  | .jnull =>
      (none, [⟨"confidence", "Confidence is required", "MISSING_FIELD"⟩])
  | v =>
      match pyFloat? v with
      | some conf =>
          if PyNum.le ⟨0, 0⟩ conf ∧ PyNum.le conf ⟨1, 0⟩ then (some conf, [])
          else
            (none, [⟨"confidence", "Confidence must be between 0 and 1",
              "OUT_OF_RANGE"⟩])
      | none =>
          (none, [⟨"confidence", "Confidence must be a number", "INVALID_TYPE"⟩])

/-- All characters are digits and the run is non-empty, of length at most
`maxLen` (how `strptime` consumes a numeric field). -/
def digitRun (cs : List Char) (maxLen : Nat) : Bool :=
  (!cs.isEmpty) && cs.length ≤ maxLen && cs.all Char.isDigit

/-- Numeric value of a digit list. -/
def natOfDigits (cs : List Char) : Nat :=
  cs.foldl (fun a c => a * 10 + (c.toNat - 48)) 0

/-- Gregorian leap year. -/
def isLeapYear (y : Nat) : Bool :=
  (y % 4 = 0 ∧ ¬ y % 100 = 0) ∨ y % 400 = 0

/-- Days in a month. -/
def daysInMonth (y m : Nat) : Nat :=
  if m = 2 then (if isLeapYear y then 29 else 28)
  else if m = 4 ∨ m = 6 ∨ m = 9 ∨ m = 11 then 30
  else 31

/-- `strptime(value, "%Y-%m-%d")` succeeds. -/
def parseDateYMD (s : String) : Bool :=
  match s.splitOn "-" with
  | [y, m, d] =>
      digitRun y.toList 4 && digitRun m.toList 2 && digitRun d.toList 2 &&
        (let yv := natOfDigits y.toList
        let mv := natOfDigits m.toList
        let dv := natOfDigits d.toList
        (1 ≤ mv ∧ mv ≤ 12) ∧ (1 ≤ dv ∧ dv ≤ daysInMonth yv mv))
  | _ => false

/-- `strptime` on the `%H:%M:%S` tail. -/
def parseTimeHMS (s : String) : Bool :=
  match s.splitOn ":" with
  | [h, m, sec] =>
      digitRun h.toList 2 && digitRun m.toList 2 && digitRun sec.toList 2 &&
        (natOfDigits h.toList ≤ 23 ∧ natOfDigits m.toList ≤ 59 ∧
          natOfDigits sec.toList ≤ 61)
  | _ => false

/-- The three formats tried by `_validate_date` (`validator.py:212`). -/
def parseDateAnyFormat (s : String) : Bool :=
  parseDateYMD s ||
    (match s.splitOn "T" with
    | [d, t] =>
        (parseDateYMD d && parseTimeHMS t) ||
          (parseDateYMD d && t.endsWith "Z" && parseTimeHMS (t.dropRight 1))
    | _ => false)

/-- `Validator._validate_date` (`validator.py:200`) on a JSON value:
`None` passes, a string must match one of the formats, anything else is an
INVALID_TYPE (the datetime-instance branch cannot arise from JSON). -/
def validateDate (value : JVal) (fieldName : String) : List ValidationError :=
  match value with
  | .jnull => []
  | .jstr s =>
      if parseDateAnyFormat s then []
      else [⟨fieldName, "Invalid date format", "INVALID_DATE"⟩]
  | _ => [⟨fieldName, "Date must be string or datetime", "INVALID_TYPE"⟩]

/-- Python truthiness of a JSON value. -/
def jTruthy : JVal → Bool
  | .jnull => false
  | .jbool b => b
  | .jnum n => !(n.mant = 0)
  | .jstr s => !(s = "")
  | .jarr xs => !xs.isEmpty
  | .jobj kvs => !kvs.isEmpty

/-- Substring membership, Python `sub in s`. -/
def containsSubList (sub : List Char) : List Char → Bool
  | [] => sub.isEmpty
  | c :: rest => List.isPrefixOf sub (c :: rest) || containsSubList sub rest

/-- `Validator._validate_parameters` (`validator.py:182`). For non-mapping
`parameters` the Python code raises (`in`/`[...]`/`.get` on an unsuitable
type); those paths surface as `.error`. -/
def validateParameters (intent_type : IntentType) (parameters : JVal) :
    Except String (List ValidationError × List String) :=
  match intent_type with
  | .PLAN_DAY =>
      match parameters with
      | .jobj entries =>
          match List.lookup "date" entries with
          | some v => .ok (validateDate v "parameters.date", [])
          | none => .ok ([], [])
      | .jstr s =>
          if containsSubList "date".toList s.toList then .error "TypeError"
          else .ok ([], [])
      | .jarr xs =>
          if xs.any (fun v => match v with | .jstr t => t = "date" | _ => false) then
            .error "TypeError"
          else .ok ([], [])
      | _ => .error "TypeError"
  | .PROCESS_MEETING_NOTES =>
      match parameters with
      | .jobj entries =>
          if !jTruthy ((List.lookup "content" entries).getD .jnull) &&
              !jTruthy ((List.lookup "notes" entries).getD .jnull) then
            .ok ([], ["Meeting notes intent has no content/notes parameter"])
          else .ok ([], [])
      | _ => .error "AttributeError"
  | _ => .ok ([], [])

/-- Per-index entity errors of `_validate_entities` (`validator.py:250`). -/
def entityErrors : Nat → List JVal → List ValidationError
  | _, [] => []
  | i, v :: rest =>
      (match v with
      | .jstr _ => []
      | _ => [⟨"raw_entities[" ++ toString i ++ "]", "Entity must be string",
          "INVALID_TYPE"⟩]) ++ entityErrors (i + 1) rest

/-- `Validator._validate_entities` (`validator.py:235`): non-list non-None
is an error; list items must be strings. -/
def validateEntities (entities : JVal) : List ValidationError :=
  match entities with
  | .jarr xs => entityErrors 0 xs
  | .jnull => []
  | _ => [⟨"raw_entities", "raw_entities must be a list", "INVALID_TYPE"⟩]

/-- `INTENT_RISK_MAP` (`validator.py:55`). -/
def intentRiskMap : IntentType → RiskLevel
  | .CAPTURE_TASKS => .LOW
  | .SEARCH_SUMMARIZE => .LOW
  | .PLAN_DAY => .MEDIUM
  | .PROCESS_MEETING_NOTES => .MEDIUM
  | .BUILD_WORKFLOW => .HIGH
  | .UNKNOWN => .LOW

/-- Key presence in a mapping (Python `k in data`; a `null` value still
counts as present). -/
def dictHasKey (d : List (String × JVal)) (k : String) : Bool :=
  (List.lookup k d).isSome

/-- Python `data.get(k)`: `None` for a missing key, and a stored `null`
also surfaces as `None`; both are `jnull` here. -/
def pyGet (d : List (String × JVal)) (k : String) : JVal :=
  match List.lookup k d with
  | none => .jnull
  | some v => v

/-- Python `data.get(k, default)`: the default only for a missing key. -/
def pyGetD (d : List (String × JVal)) (k : String) (default : JVal) : JVal :=
  match List.lookup k d with
  | none => default
  | some v => v

/-- The raw_entities list used to build the Intent (`validator.py:114`):
the list itself if it is one, else `[]`; list items are known to be
strings once validation passed. -/
def entityStrings (entities : JVal) : List String :=
  match entities with
  | .jarr xs => xs.filterMap (fun v => match v with | .jstr s => some s | _ => none)
  | _ => []

/-- `Validator.validate_intent` (`validator.py:64`): required-field check
(short-circuit), type check, confidence check, intent-specific parameter
check, entity check; errors collected; on success the Intent is built with
`intent_type or UNKNOWN` and `confidence or 0.0`. Paths where the Python
code raises (non-mapping `parameters` reaching `in`/`.get`, or pydantic
rejecting a non-mapping `parameters` at `Intent(...)`) are `.error`. -/
def validateIntent (data : List (String × JVal)) : Except String ValidationResult :=
  let missing : List ValidationError :=
    (if dictHasKey data "type" then []
      else [⟨"type", "Missing required field", "MISSING_FIELD"⟩]) ++
    (if dictHasKey data "confidence" then []
      else [⟨"confidence", "Missing required field", "MISSING_FIELD"⟩])
  if !missing.isEmpty then
    .ok { valid := false, errors := missing, warnings := [], intent := none,
          risk_level := .LOW }
  else
    let (intent_type, errs1) := validateIntentType (pyGet data "type")
    let (confidence, errs2) := validateConfidence (pyGet data "confidence")
    let parameters := pyGetD data "parameters" (.jobj [])
    let paramCheck :=
      match intent_type with
      | some t => validateParameters t parameters
      | none => .ok ([], [])
    match paramCheck with
    | .error e => .error e
    | .ok (errs3, warns) =>
        let raw_entities := pyGetD data "raw_entities" (.jarr [])
        let errs4 := validateEntities raw_entities
        let errors := errs1 ++ errs2 ++ errs3 ++ errs4
        if !errors.isEmpty then
          .ok { valid := false, errors := errors, warnings := warns,
                intent := none, risk_level := .LOW }
        else
          match parameters with
          | .jobj pentries =>
              let itype := intent_type.getD .UNKNOWN
              .ok { valid := true, errors := [], warnings := warns,
                    intent := some
                      ⟨itype, confidence.getD ⟨0, 0⟩, pentries,
                        entityStrings raw_entities⟩,
                    risk_level := intentRiskMap itype }
          | _ => .error "ValidationError"

/-- Whether an (exception-free) validation call reported `valid`. -/
def resultValid (r : Except String ValidationResult) : Bool :=
  match r with
  | .ok res => res.valid
  | .error _ => false

/-! ## CAPTURE_TASKS skill (from `atlas/skills/capture_tasks.py`) -/

/-- `str.lower()` (ASCII). -/
def pyLower (s : String) : String :=
  String.mk (s.toList.map Char.toLower)

/-- One step of `str.replace`: fuel-bounded scan replacing non-overlapping
occurrences left to right (`old` is non-empty at every call site). -/
def replaceAux (old new : List Char) : Nat → List Char → List Char
  | 0, cs => cs
  | fuel + 1, cs =>
      match cs with
      | [] => []
      | c :: rest =>
          if List.isPrefixOf old (c :: rest) then
            new ++ replaceAux old new fuel (List.drop old.length (c :: rest))
          else c :: replaceAux old new fuel rest

/-- Python `s.replace(old, new)` for non-empty `old`. -/
def pyReplace (s old new : String) : String :=
  String.mk (replaceAux old.toList new.toList s.length s.toList)

/-- `str.strip()` on a string. -/
def pyStrip (s : String) : String :=
  String.mk (pyStripChars s.toList)

/-- Python `sub in s` on strings. -/
def pyContains (s sub : String) : Bool :=
  containsSubList sub.toList s.toList

/-- Python `str(value)` on a JSON value, used by `capture_tasks` for
non-string task entries (`str(task_data)`); container rendering is
abbreviated, strings pass through unchanged as `str` does. -/
def pyStrJVal : JVal → String
  | .jstr s => s
  | .jnull => "None"
  | .jbool b => if b then "True" else "False"
  | .jnum n => toString n.mant ++ "e" ++ toString n.exp10
  | .jarr _ => "<list>"
  | .jobj _ => "<dict>"

/-- The wall-clock dates `_get_today`, `_get_tomorrow`,
`_get_next_weekday(4)` produce (`capture_tasks.py:120`), made an explicit
input because they read `datetime.utcnow()`. -/
structure PyClock where
  today : String
  tomorrow : String
  nextFriday : String
deriving Repr

/-- The tool dispatcher seen by a skill: `context.tools.execute(name,
args, skip_confirmation)`, abstracted over the environment. -/
def ToolExec : Type :=
  String → List (String × JVal) → Bool → ToolCall × Option ToolResult

/-- Entity-string collection of `CaptureTasksSkill.execute`
(`capture_tasks.py:41` to `capture_tasks.py:52`): `entities` starts as a
Python *alias* of `intent.raw_entities`, and any `parameters.tasks` titles
are appended to that very list, mutating the intent in place. The function
returns the collected entities together with the intent as it stands after
the appends. -/
def captureCollectEntities (intent : Intent) : List String × Intent :=
  let tasksAdd : List String :=
    match List.lookup "tasks" intent.parameters with
    | some (.jarr task_list) =>
        task_list.map (fun td =>
          match td with
          | .jobj d =>
              match List.lookup "title" d with
              | some (.jstr t) => t
              | _ => pyStrJVal td
          | _ => pyStrJVal td)
    | _ => []
  let entities := intent.raw_entities ++ tasksAdd
  (entities, { intent with raw_entities := entities })

/-- Due-date and priority parsing plus title cleanup for one entity
(`capture_tasks.py:66` to `capture_tasks.py:88`). Returns
`(title, due_date, priority)`. -/
def parseTaskEntity (clock : PyClock) (entity : String) :
    String × Option String × String :=
  let title0 := pyStrip entity
  let title_lower := pyLower title0
  let (due_date, title) :=
    if pyContains title_lower "by friday" then
      (some clock.nextFriday,
        pyStrip (pyReplace (pyReplace title0 "by Friday" "") "by friday" ""))
    else if pyContains title_lower "tomorrow" then
      (some clock.tomorrow, pyStrip (pyReplace title0 "tomorrow" ""))
    else if pyContains title_lower "today" then
      (some clock.today, pyStrip (pyReplace title0 "today" ""))
    else (none, title0)
  let priority :=
    if pyContains title_lower "urgent" || pyContains title_lower "asap" then
      "high"
    else if pyContains title_lower "low priority" ||
        pyContains title_lower "whenever" then
      "low"
    else "medium"
  (title, due_date, priority)

/-- The task-creation loop of `CaptureTasksSkill.execute`
(`capture_tasks.py:66` to `capture_tasks.py:109`), one entity at a time;
the accumulator is the in-progress skill result and the created count. -/
def captureTasksLoop (toolExec : ToolExec) (clock : PyClock) :
    List String → SkillResult × Nat → SkillResult × Nat
  | [], acc => acc
  | entity :: rest, (sr, created) =>
      let (title, due_date, priority) := parseTaskEntity clock entity
      let args := [("title", .jstr title),
        ("due_date", match due_date with | some d => .jstr d | none => .jnull),
        ("priority", .jstr priority)]
      let (tool_call, tool_result) := toolExec "TASK_CREATE" args true
      let sr := { sr with tool_calls := sr.tool_calls ++ [tool_call] }
      let (sr, created) :=
        match tool_result with
        | some tr =>
            if tr.success then
              ({ sr with
                changes := sr.changes ++ tr.changes,
                undo_steps := sr.undo_steps ++
                  (match tr.undo_step with | some u => [u] | none => []) },
                created + 1)
            else if (tool_call.error).isSome then
              ({ sr with warnings := sr.warnings ++ ["Failed to create task"] },
                created)
            else (sr, created)
        | none =>
            if (tool_call.error).isSome then
              ({ sr with warnings := sr.warnings ++ ["Failed to create task"] },
                created)
            else (sr, created)
      captureTasksLoop toolExec clock rest (sr, created)

/-- `CaptureTasksSkill.execute` (`capture_tasks.py:37`), with the tool
dispatcher and clock as explicit environment. Returns the skill result and
the intent as left behind (mutated through the `entities` alias when
`parameters.tasks` exist). -/
def captureTasksExecute (intent : Intent) (toolExec : ToolExec)
    (clock : PyClock) : SkillResult × Intent :=
  let (entities, intentAfter) := captureCollectEntities intent
  if entities.isEmpty then
    ({ emptySkillResult with warnings := ["No tasks found in input"] },
      intentAfter)
  else
    let (sr, created) :=
      captureTasksLoop toolExec clock entities (emptySkillResult, 0)
    let sr := { sr with
      data := [("tasks_created", .jnum ⟨(created : Int), 0⟩),
        ("tasks_requested", .jnum ⟨(entities.length : Int), 0⟩)] }
    if created = 0 then
      let sr2 := { sr with
        success := false,
        errors := sr.errors ++ ["Failed to create any tasks"] }
      (sr2, intentAfter)
    else (sr, intentAfter)

/-- A dispatcher stub whose TASK_CREATE always succeeds without changes
(concrete evaluation input). -/
def stubToolExec : ToolExec := fun name args _skip =>
  let call : ToolCall := {
    tool_name := name, args := args, status := .OK,
    result := .jnull, error := none }
  let res : ToolResult := {
    success := true, data := [], changes := [],
    undo_step := none, error := none }
  (call, some res)

/-- A fixed clock (concrete evaluation input). -/
def stubClock : PyClock :=
  { today := "2026-10-12", tomorrow := "2026-10-13", nextFriday := "2026-10-16" }

/-- The concrete intent fed to `capture_tasks` for C9: validated
CAPTURE_TASKS intent with `parameters.tasks = ["x"]` and empty
`raw_entities`. -/
def c9Intent : Intent :=
  { type := .CAPTURE_TASKS, confidence := ⟨9, -1⟩,
    parameters := [("tasks", .jarr [.jstr "x"])], raw_entities := [] }

/-! ## Receipts store (from `atlas/storage/receipts.py`)

`create` serializes the receipt with `model_dump_json` and inserts the
blob keyed by `receipt_id`; `get` selects the blob and re-validates with
`model_validate_json`. The pydantic serialization pair is embedded as an
encoder to, and a decoder from, the JSON tree. -/

/-- Enum value of a receipt status. -/
def receiptStatusStr : ReceiptStatus → String
  | .SUCCESS => "SUCCESS"
  | .PARTIAL => "PARTIAL"
  | .FAILED => "FAILED"
  | .PENDING_CONFIRM => "PENDING_CONFIRM"

/-- Enum lookup of a receipt status. -/
def receiptStatusOfStr? (s : String) : Option ReceiptStatus :=
  if s = "SUCCESS" then some .SUCCESS
  else if s = "PARTIAL" then some .PARTIAL
  else if s = "FAILED" then some .FAILED
  else if s = "PENDING_CONFIRM" then some .PENDING_CONFIRM
  else none

/-- Enum value of a tool-call status. -/
def toolCallStatusStr : ToolCallStatus → String
  | .PENDING_CONFIRM => "PENDING_CONFIRM"
  | .OK => "OK"
  | .FAILED => "FAILED"
  | .SKIPPED => "SKIPPED"

/-- Enum lookup of a tool-call status. -/
def toolCallStatusOfStr? (s : String) : Option ToolCallStatus :=
  if s = "PENDING_CONFIRM" then some .PENDING_CONFIRM
  else if s = "OK" then some .OK
  else if s = "FAILED" then some .FAILED
  else if s = "SKIPPED" then some .SKIPPED
  else none

/-- Enum value of a fallback trigger. -/
def triggerStr : FallbackTrigger → String
  | .INVALID_JSON => "INVALID_JSON"
  | .VALIDATION_ERROR => "VALIDATION_ERROR"
  | .TIMEOUT => "TIMEOUT"
  | .RATE_LIMIT => "RATE_LIMIT"
  | .PROVIDER_DOWN => "PROVIDER_DOWN"
  | .CAPABILITY_MISMATCH => "CAPABILITY_MISMATCH"

/-- Enum lookup of a fallback trigger. -/
def triggerOfStr? (s : String) : Option FallbackTrigger :=
  if s = "INVALID_JSON" then some .INVALID_JSON
  else if s = "VALIDATION_ERROR" then some .VALIDATION_ERROR
  else if s = "TIMEOUT" then some .TIMEOUT
  else if s = "RATE_LIMIT" then some .RATE_LIMIT
  else if s = "PROVIDER_DOWN" then some .PROVIDER_DOWN
  else if s = "CAPABILITY_MISMATCH" then some .CAPABILITY_MISMATCH
  else none

/-- Enum value of an intent type. -/
def intentTypeStr : IntentType → String
  | .CAPTURE_TASKS => "CAPTURE_TASKS"
  | .PLAN_DAY => "PLAN_DAY"
  | .PROCESS_MEETING_NOTES => "PROCESS_MEETING_NOTES"
  | .SEARCH_SUMMARIZE => "SEARCH_SUMMARIZE"
  | .BUILD_WORKFLOW => "BUILD_WORKFLOW"
  | .UNKNOWN => "UNKNOWN"

/-- A JSON string, or nothing. -/
def asStr : JVal → Option String
  | .jstr s => some s
  | _ => none

/-- A JSON boolean, or nothing. -/
def asBool : JVal → Option Bool
  | .jbool b => some b
  | _ => none

/-- A JSON object's entries, or nothing. -/
def asObj : JVal → Option (List (String × JVal))
  | .jobj entries => some entries
  | _ => none

/-- A JSON array's elements, or nothing. -/
def asArr : JVal → Option (List JVal)
  | .jarr xs => some xs
  | _ => none

/-- `str | None` serialization. -/
def jsonOfOptStr : Option String → JVal
  | none => .jnull
  | some s => .jstr s

/-- `str | None` deserialization. -/
def optStrOfJson : JVal → Option (Option String)
  | .jnull => some none
  | .jstr s => some (some s)
  | _ => none

/-- Non-negative `int` serialization. -/
def jsonOfNat (n : Nat) : JVal := .jnum ⟨(n : Int), 0⟩

/-- Non-negative `int` deserialization. -/
def natOfJson : JVal → Option Nat
  | .jnum ⟨Int.ofNat n, e⟩ => if e = 0 then some n else none
  | _ => none

/-- `int | None` serialization. -/
def jsonOfOptNat : Option Nat → JVal
  | none => .jnull
  | some n => jsonOfNat n

/-- `int | None` deserialization. -/
def optNatOfJson : JVal → Option (Option Nat)
  | .jnull => some none
  | v => (natOfJson v).map some

/-- `dict | None` serialization. -/
def jsonOfOptObj : Option (List (String × JVal)) → JVal
  | none => .jnull
  | some entries => .jobj entries

/-- `dict | None` deserialization. -/
def optObjOfJson : JVal → Option (Option (List (String × JVal)))
  | .jnull => some none
  | .jobj entries => some (some entries)
  | _ => none

/-- `model_dump` of a `ModelAttempt`. -/
def jsonOfAttempt (a : ModelAttempt) : JVal :=
  .jobj [("provider", .jstr a.provider), ("model", .jstr a.model),
    ("attempt_number", jsonOfNat a.attempt_number),
    ("success", .jbool a.success),
    ("fallback_trigger",
      match a.fallback_trigger with
      | none => .jnull
      | some t => .jstr (triggerStr t)),
    ("latency_ms", jsonOfOptNat a.latency_ms)]

/-- `model_validate` of a `ModelAttempt`. -/
def attemptOfJson (v : JVal) : Option ModelAttempt := do
  let entries ← asObj v
  let provider ← asStr (← List.lookup "provider" entries)
  let model ← asStr (← List.lookup "model" entries)
  let attempt_number ← natOfJson (← List.lookup "attempt_number" entries)
  let success ← asBool (← List.lookup "success" entries)
  let ftv ← List.lookup "fallback_trigger" entries
  let fallback_trigger ←
    match ftv with
    | .jnull => some none
    | .jstr s => (triggerOfStr? s).map some
    | _ => none
  let latency_ms ← optNatOfJson (← List.lookup "latency_ms" entries)
  pure ⟨provider, model, attempt_number, success, fallback_trigger, latency_ms⟩

/-- `model_dump` of an `Intent`. -/
def jsonOfIntent (i : Intent) : JVal :=
  .jobj [("type", .jstr (intentTypeStr i.type)),
    ("confidence", .jnum i.confidence),
    ("parameters", .jobj i.parameters),
    ("raw_entities", .jarr (i.raw_entities.map .jstr))]

/-- `model_validate` of an `Intent`. -/
def intentOfJson (v : JVal) : Option Intent := do
  let entries ← asObj v
  let type ← do
    let tv ← List.lookup "type" entries
    match tv with
    | .jstr s => intentTypeOfString? s
    | _ => none
  let confidence ← do
    let cv ← List.lookup "confidence" entries
    match cv with
    | .jnum n => some n
    | _ => none
  let parameters ← asObj (← List.lookup "parameters" entries)
  let raw_entities ← (← asArr (← List.lookup "raw_entities" entries)).mapM asStr
  pure ⟨type, confidence, parameters, raw_entities⟩

/-- `Intent | None` serialization. -/
def jsonOfOptIntent : Option Intent → JVal
  | none => .jnull
  | some i => jsonOfIntent i

/-- `Intent | None` deserialization. -/
def optIntentOfJson : JVal → Option (Option Intent)
  | .jnull => some none
  | v => (intentOfJson v).map some

/-- `model_dump` of a `ToolCall`. -/
def jsonOfToolCall (tc : ToolCall) : JVal :=
  .jobj [("tool_name", .jstr tc.tool_name),
    ("args", .jobj tc.args),
    ("status", .jstr (toolCallStatusStr tc.status)),
    ("result", tc.result),
    ("error", jsonOfOptStr tc.error)]

/-- `model_validate` of a `ToolCall`. -/
def toolCallOfJson (v : JVal) : Option ToolCall := do
  let entries ← asObj v
  let tool_name ← asStr (← List.lookup "tool_name" entries)
  let args ← asObj (← List.lookup "args" entries)
  let status ← do
    let sv ← List.lookup "status" entries
    match sv with
    | .jstr s => toolCallStatusOfStr? s
    | _ => none
  let result ← List.lookup "result" entries
  let error ← optStrOfJson (← List.lookup "error" entries)
  pure ⟨tool_name, args, status, result, error⟩

/-- `model_dump` of a `Change`. -/
def jsonOfChange (c : Change) : JVal :=
  .jobj [("entity_type", .jstr c.entity_type),
    ("entity_id", .jstr c.entity_id),
    ("action", .jstr c.action),
    ("before", jsonOfOptObj c.before),
    ("after", jsonOfOptObj c.after)]

/-- `model_validate` of a `Change`. -/
def changeOfJson (v : JVal) : Option Change := do
  let entries ← asObj v
  let entity_type ← asStr (← List.lookup "entity_type" entries)
  let entity_id ← asStr (← List.lookup "entity_id" entries)
  let action ← asStr (← List.lookup "action" entries)
  let before ← optObjOfJson (← List.lookup "before" entries)
  let after ← optObjOfJson (← List.lookup "after" entries)
  pure ⟨entity_type, entity_id, action, before, after⟩

/-- `model_dump` of an `UndoStep`. -/
def jsonOfUndoStep (u : UndoStep) : JVal :=
  .jobj [("tool_name", .jstr u.tool_name),
    ("args", .jobj u.args),
    ("description", .jstr u.description)]

/-- `model_validate` of an `UndoStep`. -/
def undoStepOfJson (v : JVal) : Option UndoStep := do
  let entries ← asObj v
  let tool_name ← asStr (← List.lookup "tool_name" entries)
  let args ← asObj (← List.lookup "args" entries)
  let description ← asStr (← List.lookup "description" entries)
  pure ⟨tool_name, args, description⟩

/-- `Receipt.model_dump_json` as a JSON tree (`receipts.py:39`). -/
def jsonOfReceipt (r : Receipt) : JVal :=
  .jobj [("receipt_id", .jstr r.receipt_id),
    ("profile_id", jsonOfOptStr r.profile_id),
    ("status", .jstr (receiptStatusStr r.status)),
    ("user_input", .jstr r.user_input),
    ("models_attempted", .jarr (r.models_attempted.map jsonOfAttempt)),
    ("intent_final", jsonOfOptIntent r.intent_final),
    ("tool_calls", .jarr (r.tool_calls.map jsonOfToolCall)),
    ("changes", .jarr (r.changes.map jsonOfChange)),
    ("undo", .jarr (r.undo.map jsonOfUndoStep)),
    ("warnings", .jarr (r.warnings.map .jstr)),
    ("errors", .jarr (r.errors.map .jstr))]

/-- Decode a field through a per-value decoder. -/
def lookDec {α : Type} (entries : List (String × JVal)) (k : String)
    (dec : JVal → Option α) : Option α :=
  Option.bind (List.lookup k entries) dec

/-- Decode an array-of-`dec` field. -/
def lookList {α : Type} (entries : List (String × JVal)) (k : String)
    (dec : JVal → Option α) : Option (List α) :=
  Option.bind (Option.bind (List.lookup k entries) asArr) (fun xs => xs.mapM dec)

/-- Decode the status string field. -/
def lookStatus (entries : List (String × JVal)) : Option ReceiptStatus :=
  lookDec entries "status"
    (fun sv => match sv with | .jstr s => receiptStatusOfStr? s | _ => none)

/-- `Receipt.model_validate_json` from a JSON tree (`receipts.py:76`). -/
def receiptOfJson (v : JVal) : Option Receipt :=
  Option.bind (asObj v) (fun entries =>
  Option.bind (lookDec entries "receipt_id" asStr) (fun receipt_id =>
  Option.bind (lookDec entries "profile_id" optStrOfJson) (fun profile_id =>
  Option.bind (lookStatus entries) (fun status =>
  Option.bind (lookDec entries "user_input" asStr) (fun user_input =>
  Option.bind (lookList entries "models_attempted" attemptOfJson) (fun models_attempted =>
  Option.bind (lookDec entries "intent_final" optIntentOfJson) (fun intent_final =>
  Option.bind (lookList entries "tool_calls" toolCallOfJson) (fun tool_calls =>
  Option.bind (lookList entries "changes" changeOfJson) (fun changes =>
  Option.bind (lookList entries "undo" undoStepOfJson) (fun undo =>
  Option.bind (lookList entries "warnings" asStr) (fun warnings =>
  Option.bind (lookList entries "errors" asStr) (fun errors =>
  some ⟨receipt_id, profile_id, status, user_input, models_attempted,
    intent_final, tool_calls, changes, undo, warnings, errors⟩))))))))))))

/-- `ReceiptsStore.create` (`receipts.py:29`): insert a row keyed by
`str(receipt.receipt_id)` holding the serialized blob. The unique index
`idx_receipts_receipt_id` forbids inserting an existing key. -/
def storeCreate (db : List (String × JVal)) (r : Receipt) : List (String × JVal) :=
  db ++ [(r.receipt_id, jsonOfReceipt r)]

/-- `ReceiptsStore.get` (`receipts.py:60`): fetch the row by key and
re-validate the blob. -/
def storeGet (db : List (String × JVal)) (receipt_id : String) : Option Receipt :=
  match List.lookup receipt_id db with
  | some blob => receiptOfJson blob
  | none => none

/-- A concrete receipt exercising every aggregate field. -/
def sampleReceipt : Receipt :=
  { receipt_id := "11111111-2222-3333-4444-555555555555",
    profile_id := some "ada",
    status := .SUCCESS,
    user_input := "buy milk",
    models_attempted := [{
      provider := "ollama", model := "llama3.2:1b", attempt_number := 1,
      success := true, fallback_trigger := none, latency_ms := some 42 }],
    intent_final := some {
      type := .CAPTURE_TASKS, confidence := ⟨95, -2⟩,
      parameters := [("priority", .jstr "medium")],
      raw_entities := ["buy milk"] },
    tool_calls := [{
      tool_name := "TASK_CREATE", args := [("title", .jstr "buy milk")],
      status := .OK, result := .jobj [("task_id", .jstr "t1")],
      error := none }],
    changes := [⟨"task", "t1", "created", none,
      some [("title", .jstr "buy milk")]⟩],
    undo := [⟨"TASK_DELETE", [("task_id", .jstr "t1")], "Delete task"⟩],
    warnings := [],
    errors := [] }

/-! ## JSON parsing (Python `json.loads`, as used by the normalizer)

A recursive-descent parser over character lists, modelling the strict
`json` module: standard literals, strings with escapes (surrogate pairing
not modelled), strict numbers, arrays, and objects with last-wins
duplicate keys. Containers recurse on a fuel bounded by the input length. -/

/-- JSON whitespace accepted by the scanner. -/
def isJsonWs (c : Char) : Bool :=
  c = ' ' ∨ c = '\t' ∨ c = '\n' ∨ c = '\r'

/-- Skip JSON whitespace. -/
def skipWs (cs : List Char) : List Char := cs.dropWhile isJsonWs

/-- Hex digit value. -/
def hexVal? (c : Char) : Option Nat :=
  if c.isDigit then some (c.toNat - 48)
  else if 'a' ≤ c ∧ c ≤ 'f' then some (c.toNat - 87)
  else if 'A' ≤ c ∧ c ≤ 'F' then some (c.toNat - 55)
  else none

/-- JSON string body after the opening quote: the decoded characters and
the rest after the closing quote. Control characters are rejected (strict
mode); `\uXXXX` becomes the code point directly. -/
def parseStringBody (acc : List Char) : List Char → Option (List Char × List Char)
  | [] => none
  | c :: rest =>
      if c = '"' then some (acc.reverse, rest)
      else if c = '\\' then
        match rest with
        | [] => none
        | e :: rest2 =>
            if e = '"' then parseStringBody ('"' :: acc) rest2
            else if e = '\\' then parseStringBody ('\\' :: acc) rest2
            else if e = '/' then parseStringBody ('/' :: acc) rest2
            else if e = 'b' then parseStringBody ('\x08' :: acc) rest2
            else if e = 'f' then parseStringBody ('\x0c' :: acc) rest2
            else if e = 'n' then parseStringBody ('\n' :: acc) rest2
            else if e = 'r' then parseStringBody ('\r' :: acc) rest2
            else if e = 't' then parseStringBody ('\t' :: acc) rest2
            else if e = 'u' then
              match rest2 with
              | h1 :: h2 :: h3 :: h4 :: rest3 =>
                  match hexVal? h1, hexVal? h2, hexVal? h3, hexVal? h4 with
                  | some v1, some v2, some v3, some v4 =>
                      parseStringBody
                        (Char.ofNat (((v1 * 16 + v2) * 16 + v3) * 16 + v4) :: acc)
                        rest3
                  | _, _, _, _ => none
              | _ => none
            else none
      else if c.toNat < 32 then none
      else parseStringBody (c :: acc) rest

/-- JSON number: strict grammar (`-`? int frac? exp?, no leading zeros). -/
def parseNumber (cs : List Char) : Option (PyNum × List Char) :=
  let (sign, cs1) := match cs with | '-' :: r => ((-1 : Int), r) | _ => ((1 : Int), cs)
  match cs1 with
  | [] => none
  | c :: _ =>
      if ¬ c.isDigit then none
      else
        let (ip, ipn, cs2) := digitsAux 0 0 cs1
        if c = '0' ∧ 1 < ipn then none
        else
          let fracParse : Option (Nat × Nat × List Char) :=
            match cs2 with
            | '.' :: r =>
                let (fp, fpn, r2) := digitsAux 0 0 r
                if fpn = 0 then none else some (fp, fpn, r2)
            | _ => some (0, 0, cs2)
          match fracParse with
          | none => none
          | some (fp, fpn, cs3) =>
              let mant : Int := sign * ((ip : Int) * (10 : Int) ^ fpn + (fp : Int))
              match cs3 with
              | e :: r =>
                  if e = 'e' ∨ e = 'E' then
                    let (esign, r1) := signSplit r
                    let (ev, en, r2) := digitsAux 0 0 r1
                    if en = 0 then none
                    else some (⟨mant, esign * (ev : Int) - (fpn : Int)⟩, r2)
                  else some (⟨mant, -(fpn : Int)⟩, cs3)
              | [] => some (⟨mant, -(fpn : Int)⟩, [])

/-- Literal keyword. -/
def stripLit (lit : List Char) (cs : List Char) : Option (List Char) :=
  if List.isPrefixOf lit cs then some (List.drop lit.length cs) else none

mutual

/-- One JSON value at a whitespace-skipped position. -/
def parseVal : Nat → List Char → Option (JVal × List Char)
  | 0, _ => none
  | _, [] => none
  | fuel + 1, c :: rest =>
      if c = '{' then parseObjItems fuel (skipWs rest) []
      else if c = '[' then parseArrItems fuel (skipWs rest) []
      else if c = '"' then
        match parseStringBody [] rest with
        | some (s, r) => some (.jstr (String.mk s), r)
        | none => none
      else if c = 't' then
        match stripLit ['r', 'u', 'e'] rest with
        | some r => some (.jbool true, r)
        | none => none
      else if c = 'f' then
        match stripLit ['a', 'l', 's', 'e'] rest with
        | some r => some (.jbool false, r)
        | none => none
      else if c = 'n' then
        match stripLit ['u', 'l', 'l'] rest with
        | some r => some (.jnull, r)
        | none => none
      else
        match parseNumber (c :: rest) with
        | some (n, r) => some (.jnum n, r)
        | none => none

/-- Array elements, at a whitespace-skipped position; `acc` holds parsed
elements (empty only before the first). -/
def parseArrItems : Nat → List Char → List JVal → Option (JVal × List Char)
  | 0, _, _ => none
  | fuel + 1, cs, acc =>
      match cs with
      | ']' :: rest =>
          if acc.isEmpty then some (.jarr [], rest)
          else none
      | _ =>
          match parseVal fuel cs with
          | none => none
          | some (v, r) =>
              match skipWs r with
              | ',' :: r2 => parseArrItems fuel (skipWs r2) (acc ++ [v])
              | ']' :: r2 => some (.jarr (acc ++ [v]), r2)
              | _ => none

/-- Object members, at a whitespace-skipped position; duplicate keys
resolve last-wins as in a Python dict. -/
def parseObjItems : Nat → List Char → List (String × JVal) →
    Option (JVal × List Char)
  | 0, _, _ => none
  | fuel + 1, cs, acc =>
      match cs with
      | '}' :: rest =>
          if acc.isEmpty then some (.jobj [], rest)
          else none
      | '"' :: rest =>
          match parseStringBody [] rest with
          | none => none
          | some (k, r) =>
              match skipWs r with
              | ':' :: r2 =>
                  match parseVal fuel (skipWs r2) with
                  | none => none
                  | some (v, r3) =>
                      match skipWs r3 with
                      | ',' :: r4 =>
                          parseObjItems fuel (skipWs r4)
                            (dictSet acc (String.mk k) v)
                      | '}' :: r4 =>
                          some (.jobj (dictSet acc (String.mk k) v), r4)
                      | _ => none
              | _ => none
      | _ => none

end

/-- `json.loads` on a character list: one value, whole input consumed. -/
def jsonParse (cs : List Char) : Option JVal :=
  match parseVal (cs.length + 1) (skipWs cs) with
  | some (v, rest) => if (skipWs rest).isEmpty then some v else none
  | none => none

/-! ## Normalizer (from `atlas/core/normalizer/normalizer.py`) -/

/-- The repair tags recorded in `repairs_applied`. -/
inductive Repair where
  | extracted_from_markdown
  | extracted_json_structure
  | removed_trailing_commas
  | quoted_keys
  | single_to_double_quotes
deriving DecidableEq, Repr

/-- The error shapes produced by the normalizer, with interpolations
abstracted: `decodeError` is `json.JSONDecodeError`'s text, `unexpectedType`
the "Unexpected JSON type" message of `_try_parse` (`normalizer.py:100`),
`afterRepairs` the "Failed to normalize JSON after repairs" message
(`normalizer.py:87`) carrying the repairs attempted. -/
inductive NormError where
  | decodeError
  | unexpectedType
  | afterRepairs (repairs : List Repair)
deriving DecidableEq, Repr

/-- `NormalizerResult` from `normalizer.py:21`. -/
structure NormalizerResult where
  success : Bool
  data : Option (List (String × JVal))
  error : Option NormError
  repairs_applied : Option (List Repair)
deriving Repr

/-- `JSONNormalizer._try_parse` (`normalizer.py:91`): strip, parse; a
mapping stands, a sequence is wrapped under "items", anything else is a
type failure. -/
def tryParse (t : List Char) : NormalizerResult :=
  match jsonParse (pyStripChars t) with
  | some (.jobj entries) =>
      { success := true, data := some entries, error := none,
        repairs_applied := none }
  | some (.jarr xs) =>
      { success := true, data := some [("items", .jarr xs)], error := none,
        repairs_applied := none }
  | some _ =>
      { success := false, data := none, error := some .unexpectedType,
        repairs_applied := none }
  | none =>
      { success := false, data := none, error := some .decodeError,
        repairs_applied := none }

/-- A markdown fence. -/
def fenceChars : List Char := [Char.ofNat 96, Char.ofNat 96, Char.ofNat 96]

/-- The suffix after the first fence, if any. -/
def afterFirstFence : List Char → Option (List Char)
  | [] => none
  | c :: rest =>
      if List.isPrefixOf fenceChars (c :: rest) then
        some (List.drop 3 (c :: rest))
      else afterFirstFence rest

/-- Split at the earliest fence: the part before it and the part after. -/
def splitAtFence : List Char → Option (List Char × List Char)
  | [] => none
  | c :: rest =>
      if List.isPrefixOf fenceChars (c :: rest) then
        some ([], List.drop 3 (c :: rest))
      else
        match splitAtFence rest with
        | some (cap, after) => some (c :: cap, after)
        | none => none

/-- Case-insensitive `json` tag right after the opening fence. -/
def hasJsonTag (cs : List Char) : Bool :=
  match cs with
  | a :: b :: c :: d :: _ =>
      a.toLower = 'j' ∧ b.toLower = 's' ∧ c.toLower = 'o' ∧ d.toLower = 'n'
  | _ => false

/-- The bodies captured by `findall` of the `MARKDOWN_JSON_PATTERN`
(`normalizer.py:35`): at each opening fence, the optional case-insensitive
`json` tag and greedy whitespace are consumed, the lazy capture runs to
the earliest closing fence, and scanning continues after it. -/
def findFenceBodies (fuel : Nat) (cs : List Char) : List (List Char) :=
  match afterFirstFence cs with
  | none => []
  | some afterOpen =>
      let afterTag := if hasJsonTag afterOpen then List.drop 4 afterOpen else afterOpen
      let body0 := afterTag.dropWhile isPySpace
      match splitAtFence body0 with
      | none => []
      | some (cap, after) =>
          match fuel with
          | 0 => []
          | fuel' + 1 => cap :: findFenceBodies fuel' after

/-- Whether a candidate starts like JSON. -/
def startsBrace (cs : List Char) : Bool :=
  match cs with
  | c :: _ => c = '{' ∨ c = '['
  | [] => false

/-- `JSONNormalizer._extract_from_markdown` (`normalizer.py:106`): the
first fenced body whose stripped text begins with `{` or `[`, stripped. -/
def extractFromMarkdown (cs : List Char) : Option (List Char) :=
  ((findFenceBodies cs.length cs).map pyStripChars).find? startsBrace

/-- Index of the first occurrence of a character. -/
def idxOf? (c : Char) : List Char → Option Nat
  | [] => none
  | d :: rest =>
      if d = c then some 0
      else match idxOf? c rest with
        | some i => some (i + 1)
        | none => none

/-- Index of the last occurrence of a character. -/
def lastIdxOf? (c : Char) (cs : List Char) : Option Nat :=
  match idxOf? c cs.reverse with
  | some k => some (cs.length - 1 - k)
  | none => none

/-- The greedy span of `re.search(open [\s\S]* close)`: from the first
opening character having a closing one after it (necessarily the first
opening character) to the last closing character. -/
def braceSpan (op cl : Char) (cs : List Char) : Option (List Char) :=
  match idxOf? op cs with
  | none => none
  | some i =>
      let tail := List.drop (i + 1) cs
      match lastIdxOf? cl tail with
      | none => none
      | some j => some (op :: List.take (j + 1) tail)

/-- `JSONNormalizer._find_json_structure` (`normalizer.py:117`): an object
span first, else an array span. -/
def findJsonStructure (cs : List Char) : Option (List Char) :=
  match braceSpan '{' '}' cs with
  | some sub => some sub
  | none => braceSpan '[' ']' cs

/-- Does `,(\s*[}\x5d])` match anywhere? -/
def hasTrailingComma : List Char → Bool
  | [] => false
  | c :: rest =>
      if c = ',' then
        match rest.dropWhile isPySpace with
        | b :: _ => if b = '}' ∨ b = ']' then true else hasTrailingComma rest
        | [] => hasTrailingComma rest
      else hasTrailingComma rest

/-- `re.sub(",(\s*[}\x5d])", "\1", ·)`: drop each comma standing directly
before (whitespace and) a closing bracket, continuing after the match. -/
def removeTrailingCommasAux : Nat → List Char → List Char
  | 0, cs => cs
  | _, [] => []
  | fuel + 1, c :: rest =>
      if c = ',' then
        let ws := rest.takeWhile isPySpace
        match rest.dropWhile isPySpace with
        | b :: rest3 =>
            if b = '}' ∨ b = ']' then
              ws ++ b :: removeTrailingCommasAux fuel rest3
            else c :: removeTrailingCommasAux fuel rest
        | [] => c :: removeTrailingCommasAux fuel rest
      else c :: removeTrailingCommasAux fuel rest

/-- `[a-zA-Z_]`. -/
def isIdentStart (c : Char) : Bool := c.isAlpha ∨ c = '_'

/-- `[a-zA-Z0-9_]`. -/
def isIdentChar (c : Char) : Bool := c.isAlphanum ∨ c = '_'

/-- Does the unquoted-key pattern `([{,]\s*)([A-Za-z_]\w*)(\s*:)` match? -/
def hasUnquotedKey : List Char → Bool
  | [] => false
  | c :: rest =>
      if c = '{' ∨ c = ',' then
        let r1 := rest.dropWhile isPySpace
        match r1 with
        | d :: _ =>
            if isIdentStart d then
              let r2 := r1.dropWhile isIdentChar
              match r2.dropWhile isPySpace with
              | ':' :: _ => true
              | _ => hasUnquotedKey rest
            else hasUnquotedKey rest
        | [] => hasUnquotedKey rest
      else hasUnquotedKey rest

/-- The unquoted-key substitution, continuing after each match. -/
def quoteKeysAux : Nat → List Char → List Char
  | 0, cs => cs
  | _, [] => []
  | fuel + 1, c :: rest =>
      if c = '{' ∨ c = ',' then
        let ws1 := rest.takeWhile isPySpace
        let r1 := rest.dropWhile isPySpace
        match r1 with
        | d :: _ =>
            if isIdentStart d then
              let ident := r1.takeWhile isIdentChar
              let r2 := r1.dropWhile isIdentChar
              let ws2 := r2.takeWhile isPySpace
              match r2.dropWhile isPySpace with
              | ':' :: r4 =>
                  c :: (ws1 ++ '"' :: ident ++ '"' :: ws2) ++
                    ':' :: quoteKeysAux fuel r4
              | _ => c :: quoteKeysAux fuel rest
            else c :: quoteKeysAux fuel rest
        | [] => c :: quoteKeysAux fuel rest
      else c :: quoteKeysAux fuel rest

/-- `JSONNormalizer._apply_repairs` (`normalizer.py:131`): trailing commas,
unquoted keys, then single-to-double quotes when no double quote occurs. -/
def applyRepairs (cs : List Char) : List Char × List Repair :=
  let (r1, l1) :=
    if hasTrailingComma cs then
      (removeTrailingCommasAux cs.length cs, [Repair.removed_trailing_commas])
    else (cs, [])
  let (r2, l2) :=
    if hasUnquotedKey r1 then
      (quoteKeysAux r1.length r1, l1 ++ [Repair.quoted_keys])
    else (r1, l1)
  if (r1.any (fun c => c = Char.ofNat 39)) ∧ ¬ (r1.any (fun c => c = '"')) then
    (r2.map (fun c => if c = Char.ofNat 39 then '"' else c),
      l2 ++ [Repair.single_to_double_quotes])
  else (r2, l2)

/-- Step 4 of `normalize` (`normalizer.py:76`). -/
def normalizeStep4 (raw : List Char) (repairs : List Repair) : NormalizerResult :=
  let (repaired, rlist) := applyRepairs raw
  let repairs := repairs ++ rlist
  let r := tryParse repaired
  if r.success then { r with repairs_applied := some repairs }
  else
    { success := false, data := none, error := some (.afterRepairs repairs),
      repairs_applied := some repairs }

/-- Step 3 of `normalize` (`normalizer.py:66`): structure scouting only
counts when it changes the candidate. -/
def normalizeStep3 (raw : List Char) (repairs : List Repair) : NormalizerResult :=
  match findJsonStructure raw with
  | some ex =>
      if ¬ ex = raw then
        let repairs := repairs ++ [Repair.extracted_json_structure]
        let r := tryParse ex
        if r.success then { r with repairs_applied := some repairs }
        else normalizeStep4 ex repairs
      else normalizeStep4 raw repairs
  | none => normalizeStep4 raw repairs

/-- `JSONNormalizer.normalize` (`normalizer.py:39`): direct parse, markdown
extraction, structure scouting, repairs, in that order, first success
winning. -/
def normalize (raw : List Char) : NormalizerResult :=
  let r := tryParse raw
  if r.success then r
  else
    match extractFromMarkdown raw with
    | some ex =>
        let repairs := [Repair.extracted_from_markdown]
        let r2 := tryParse ex
        if r2.success then { r2 with repairs_applied := some repairs }
        else normalizeStep3 ex repairs
    | none => normalizeStep3 raw []

/-- Non-mapping, non-sequence JSON values ("any other scalar" in the
spec's step 1). -/
def isScalarJVal : JVal → Bool
  | .jobj _ => false
  | .jarr _ => false
  | _ => true

/-- The four-character input `"{}"` — a JSON string scalar whose text is a
braced object (concrete evaluation input for C6). -/
def c6Input : List Char := ['"', '{', '}', '"']

/-! ## Theorems -/

/-- Two pointwise-equal Boolean predicates find the same first element. -/
theorem find?_congr_pred {α : Type} (p q : α → Bool) (l : List α)
    (h : ∀ x, p x = q x) : l.find? p = l.find? q := by
  induction l with
  | nil => rfl
  | cons a l ih =>
      simp only [List.find?]
      rw [h a]
      cases q a with
      | true => rfl
      | false => exact ih

/-- C2: `FallbackManager.decide` implements the spec's six-rule procedure:
empty attempts FAIL; fewer than 2 attempts on the last pair with trigger in
{INVALID_JSON, VALIDATION_ERROR} gives RETRY_SAME_MODEL with
`use_repair_prompt = true`; otherwise 3 or more distinct pairs FAIL, else
FALLBACK_NEXT_MODEL names the first chain pair not yet attempted, and FAIL
when none remains. -/
theorem decide_implements_spec_procedure (fm : FallbackManager)
    (hA : fm.max_attempts_per_model = 2) (hM : fm.max_models_per_request = 3)
    (trigger : FallbackTrigger) (attempts : List ModelAttempt)
    (profile : RoutingProfile) (jobClass : JobClass) :
    (fm.decide trigger attempts profile jobClass).observable =
      specDecide (fm.getModelChain profile jobClass) trigger attempts := by
  unfold FallbackManager.decide specDecide
  cases hlast : attempts.getLast? with
  | none => rfl
  | some current =>
      simp only
      have hcount :
          (attempts.filter (fun a => attemptPair a = (current.provider, current.model))).length
            = attempts.countP
                (fun a => a.provider = current.provider ∧ a.model = current.model) := by
        rw [List.countP_eq_length_filter]
        congr 1
        apply List.filter_congr
        intro x _
        simp [attemptPair, Prod.ext_iff]
      have hcard : (attempts.map attemptPair).toFinset.card
          = ((attempts.map attemptPair).dedup).length :=
        List.card_toFinset _
      by_cases hretry :
          attempts.countP (fun a => a.provider = current.provider ∧ a.model = current.model) < 2
            ∧ (trigger = .INVALID_JSON ∨ trigger = .VALIDATION_ERROR)
      · rw [if_pos (by rw [hcount, hA]; exact hretry), if_pos hretry]
        rfl
      · rw [if_neg (by rw [hcount, hA]; exact hretry), if_neg hretry]
        by_cases hfull : 3 ≤ (attempts.map attemptPair).toFinset.card
        · rw [if_pos (by rw [hM, ← hcard]; exact hfull), if_pos hfull]
          rfl
        · rw [if_neg (by rw [hM, ← hcard]; exact hfull), if_neg hfull]
          have hfind :
              (fm.getModelChain profile jobClass).find?
                  (fun pm => ¬ pm ∈ (attempts.map attemptPair).dedup)
                = (fm.getModelChain profile jobClass).find?
                    (fun pm => ∀ a ∈ attempts, attemptPair a ≠ pm) := by
            apply find?_congr_pred
            intro pm
            apply decide_eq_decide.mpr
            rw [List.mem_dedup, List.mem_map]
            constructor
            · intro h a ha hpa
              exact h ⟨a, ha, hpa⟩
            · rintro h ⟨a, ha, hpa⟩
              exact h a ha hpa
          rw [hfind]
          cases (fm.getModelChain profile jobClass).find?
              (fun pm => ∀ a ∈ attempts, attemptPair a ≠ pm) with
          | none => rfl
          | some pm => rfl

/-- Witness for C2 at a concrete manager and attempt history: one failed
attempt on the first BALANCED chain model with INVALID_JSON retries. -/
theorem decide_implements_spec_procedure_witness :
    (defaultFallbackManager.decide .INVALID_JSON
        [{ provider := "openai", model := "gpt-4o-mini", attempt_number := 1,
           success := false, fallback_trigger := some .INVALID_JSON,
           latency_ms := none }]
        .BALANCED .INTENT_ROUTING).observable =
      specDecide (defaultFallbackManager.getModelChain .BALANCED .INTENT_ROUTING)
        .INVALID_JSON
        [{ provider := "openai", model := "gpt-4o-mini", attempt_number := 1,
           success := false, fallback_trigger := some .INVALID_JSON,
           latency_ms := none }] :=
  decide_implements_spec_procedure defaultFallbackManager rfl rfl _ _ _ _

theorem pyOrStr_some (s old : String) :
    pyOrStr (some s) old = if s = "" then old else s := rfl

theorem pairCount_nil (q : String × String) : pairCount q [] = 0 := rfl

theorem pairCount_append (q : String × String) (l₁ l₂ : List (String × String)) :
    pairCount q (l₁ ++ l₂) = pairCount q l₁ + pairCount q l₂ := by
  simp [pairCount, List.filter_append]

theorem pairCount_singleton (q p : String × String) :
    pairCount q [p] = if p = q then 1 else 0 := by
  by_cases h : p = q
  · simp [pairCount, h]
  · simp [pairCount, h]

theorem pairCount_cons (q b : String × String) (t : List (String × String)) :
    pairCount q (b :: t) = (if b = q then 1 else 0) + pairCount q t := by
  by_cases h : b = q
  · simp [pairCount, h, Nat.add_comm]
  · simp [pairCount, h]

theorem pairCount_eq_zero_of_not_mem {q : String × String}
    {l : List (String × String)} (h : q ∉ l) : pairCount q l = 0 := by
  simp only [pairCount, List.length_eq_zero, List.filter_eq_nil_iff]
  intro x hx
  simp only [decide_eq_true_eq]
  intro hxq
  exact h (hxq ▸ hx)

theorem pairCount_pos_of_mem {q : String × String}
    {l : List (String × String)} (h : q ∈ l) : 1 ≤ pairCount q l := by
  induction l with
  | nil => cases h
  | cons a t ih =>
      rcases List.mem_cons.mp h with rfl | ht
      · simp [pairCount]
      · have hq := ih ht
        rw [pairCount_cons]
        omega

theorem pairCount_filter_le (q a : String × String) (l : List (String × String)) :
    pairCount q (l.filter (fun x => ¬ x = a)) ≤ pairCount q l :=
  List.Sublist.length_le (List.Sublist.filter _ (List.filter_sublist l))

/-- A list splits into the occurrences of `a` and the rest. -/
theorem length_eq_pairCount_add_filter (a : String × String)
    (l : List (String × String)) :
    l.length = pairCount a l + (l.filter (fun x => ¬ x = a)).length := by
  induction l with
  | nil => simp [pairCount]
  | cons b t ih =>
      have hfc : ((b :: t).filter (fun x => ¬ x = a))
          = if b = a then t.filter (fun x => ¬ x = a)
            else b :: t.filter (fun x => ¬ x = a) := by
        by_cases hb : b = a
        · simp [List.filter_cons, hb]
        · simp [List.filter_cons, hb]
      by_cases hb : b = a
      · rw [List.length_cons, pairCount_cons, if_pos hb, hfc, if_pos hb]
        omega
      · rw [List.length_cons, pairCount_cons, if_neg hb, hfc, if_neg hb,
          List.length_cons]
        omega

/-- The executor's per-pair attempt count agrees with the mapped-pair count. -/
theorem countPairAttempts_eq_pairCount (pm : String × String) (l : List ModelAttempt) :
    countPairAttempts pm l = pairCount pm (l.map attemptPair) := by
  induction l with
  | nil => rfl
  | cons a t ih =>
      have hiff : (a.provider = pm.1 ∧ a.model = pm.2) ↔ attemptPair a = pm := by
        simp [attemptPair, Prod.ext_iff]
      by_cases h : attemptPair a = pm
      · simp [countPairAttempts, pairCount, hiff, h] at ih ⊢
        omega
      · simp [countPairAttempts, pairCount, hiff, h] at ih ⊢
        omega

/-- The filter used by `decide` also measures `pairCount`. -/
theorem length_filter_pair_eq_pairCount (pm : String × String) (l : List ModelAttempt) :
    (l.filter (fun a => attemptPair a = pm)).length = pairCount pm (l.map attemptPair) := by
  induction l with
  | nil => rfl
  | cons a t ih =>
      by_cases h : attemptPair a = pm
      · simp [pairCount, h] at ih ⊢
        omega
      · simp [pairCount, h] at ih ⊢
        omega

/-- A list whose every element occurs at most twice is at most twice as
long as its set of distinct elements. -/
theorem length_le_two_mul_card_toFinset :
    ∀ (n : Nat) (l : List (String × String)), l.length ≤ n →
      (∀ q, pairCount q l ≤ 2) → l.length ≤ 2 * l.toFinset.card := by
  intro n
  induction n with
  | zero =>
      intro l hl _
      interval_cases h : l.length
      omega
  | succ n ih =>
      intro l hl h
      cases hl2 : l with
      | nil => simp
      | cons a t =>
          subst hl2
          have hsplit := length_eq_pairCount_add_filter a (a :: t)
          have hpos : 1 ≤ pairCount a (a :: t) :=
            pairCount_pos_of_mem (List.mem_cons_self a t)
          have hlt : ((a :: t).filter (fun x => ¬ x = a)).length ≤ n := by
            simp only [List.length_cons] at hl hsplit
            omega
          have hcounts : ∀ q, pairCount q ((a :: t).filter (fun x => ¬ x = a)) ≤ 2 :=
            fun q => le_trans (pairCount_filter_le q a (a :: t)) (h q)
          have ihres := ih ((a :: t).filter (fun x => ¬ x = a)) hlt hcounts
          have hfin : (a :: t).toFinset
              = insert a ((a :: t).filter (fun x => ¬ x = a)).toFinset := by
            ext x
            simp only [List.mem_toFinset, Finset.mem_insert, List.mem_filter,
              decide_eq_true_eq]
            constructor
            · intro hx
              by_cases hxa : x = a
              · exact Or.inl hxa
              · exact Or.inr ⟨hx, hxa⟩
            · rintro (rfl | ⟨hx, _⟩)
              · exact List.mem_cons_self _ _
              · exact hx
          have hnm : a ∉ ((a :: t).filter (fun x => ¬ x = a)).toFinset := by
            simp [List.mem_filter]
          rw [hfin, Finset.card_insert_of_not_mem hnm]
          have ha2 := h a
          simp only [List.length_cons] at hsplit ⊢
          omega

/-- What `decide` hands back when it does not FAIL, for a non-empty attempt
history ending in `att`: either a retry of `att`'s pair, whose count in the
history is then at most 1, or a chain pair that was never attempted, with
at most 2 distinct pairs in the history. -/
theorem decide_not_fail_next (fm : FallbackManager)
    (hA : fm.max_attempts_per_model = 2) (hM : fm.max_models_per_request = 3)
    (trigger : FallbackTrigger) (attempts₀ : List ModelAttempt) (att : ModelAttempt)
    (profile : RoutingProfile) (jobClass : JobClass)
    (hne : (fm.decide trigger (attempts₀ ++ [att]) profile jobClass).action ≠ .FAIL) :
    ∃ p m, (fm.decide trigger (attempts₀ ++ [att]) profile jobClass).next_provider = some p ∧
      (fm.decide trigger (attempts₀ ++ [att]) profile jobClass).next_model = some m ∧
      (((p, m) = attemptPair att ∧
          pairCount (p, m) ((attempts₀ ++ [att]).map attemptPair) ≤ 1) ∨
        ((p, m) ∈ fm.getModelChain profile jobClass ∧
          pairCount (p, m) ((attempts₀ ++ [att]).map attemptPair) = 0 ∧
          ((attempts₀ ++ [att]).map attemptPair).toFinset.card ≤ 2)) := by
  unfold FallbackManager.decide at *
  rw [List.getLast?_concat] at hne ⊢
  simp only at hne ⊢
  by_cases hretry :
      ((attempts₀ ++ [att]).filter
          (fun a => attemptPair a = (att.provider, att.model))).length <
        fm.max_attempts_per_model ∧
      (trigger = .INVALID_JSON ∨ trigger = .VALIDATION_ERROR)
  · rw [if_pos hretry] at hne ⊢
    refine ⟨att.provider, att.model, rfl, rfl, Or.inl ⟨rfl, ?_⟩⟩
    have hc := hretry.1
    rw [length_filter_pair_eq_pairCount, hA] at hc
    exact Nat.lt_succ_iff.mp hc
  · rw [if_neg hretry] at hne ⊢
    by_cases hfull : fm.max_models_per_request ≤
        (((attempts₀ ++ [att]).map attemptPair).dedup).length
    · rw [if_pos hfull] at hne
      exact absurd rfl hne
    · rw [if_neg hfull] at hne ⊢
      cases hfind : (fm.getModelChain profile jobClass).find?
          (fun pm => ¬ pm ∈ ((attempts₀ ++ [att]).map attemptPair).dedup) with
      | none =>
          rw [hfind] at hne
          exact absurd rfl hne
      | some pm =>
          refine ⟨pm.1, pm.2, rfl, rfl, Or.inr ⟨?_, ?_, ?_⟩⟩
          · exact List.mem_of_find?_eq_some hfind
          · have hp := List.find?_some hfind
            simp only [decide_eq_true_eq] at hp
            rw [List.mem_dedup] at hp
            exact pairCount_eq_zero_of_not_mem hp
          · rw [List.card_toFinset, hM] at *
            omega

/-- One unfolding of the classification loop. -/
theorem classifyLoop_cons (fm : FallbackManager) (profile : RoutingProfile)
    (o : AttemptOutcome) (rest : List AttemptOutcome) (pm : String × String)
    (attempts : List ModelAttempt) :
    classifyLoop fm profile (o :: rest) pm attempts =
      if o = .classified then
        attempts ++ [mkAttempt pm (countPairAttempts pm attempts + 1) o]
      else if (fm.decide ((outcomeTrigger o).getD .PROVIDER_DOWN)
          (attempts ++ [mkAttempt pm (countPairAttempts pm attempts + 1) o])
          profile .INTENT_ROUTING).action = .FAIL then
        attempts ++ [mkAttempt pm (countPairAttempts pm attempts + 1) o]
      else
        classifyLoop fm profile rest
          (pyOrStr (fm.decide ((outcomeTrigger o).getD .PROVIDER_DOWN)
              (attempts ++ [mkAttempt pm (countPairAttempts pm attempts + 1) o])
              profile .INTENT_ROUTING).next_provider pm.1,
            pyOrStr (fm.decide ((outcomeTrigger o).getD .PROVIDER_DOWN)
              (attempts ++ [mkAttempt pm (countPairAttempts pm attempts + 1) o])
              profile .INTENT_ROUTING).next_model pm.2)
          (attempts ++ [mkAttempt pm (countPairAttempts pm attempts + 1) o]) := rfl

/-- The mapped pair of the attempt recorded at working pair `pm`. -/
theorem attemptPair_mkAttempt (pm : String × String) (n : Nat) (o : AttemptOutcome) :
    attemptPair (mkAttempt pm n o) = pm := rfl

/-- Loop invariant for `_classify_intent`: starting from a history in which
every pair occurs at most twice, the working pair occurs at most once, and
the distinct pairs together with the working pair number at most 3, the
final history keeps every pair at most twice and at most 3 distinct pairs. -/
theorem classifyLoop_invariant (fm : FallbackManager)
    (hA : fm.max_attempts_per_model = 2) (hM : fm.max_models_per_request = 3)
    (profile : RoutingProfile)
    (hchain : ∀ pm ∈ fm.getModelChain profile .INTENT_ROUTING, pm.1 ≠ "" ∧ pm.2 ≠ "") :
    ∀ (outcomes : List AttemptOutcome) (pm : String × String)
      (attempts : List ModelAttempt),
      (∀ q, pairCount q (attempts.map attemptPair) ≤ 2) →
      pairCount pm (attempts.map attemptPair) ≤ 1 →
      (insert pm (attempts.map attemptPair).toFinset).card ≤ 3 →
      (∀ q, pairCount q
          ((classifyLoop fm profile outcomes pm attempts).map attemptPair) ≤ 2) ∧
        ((classifyLoop fm profile outcomes pm attempts).map attemptPair).toFinset.card ≤ 3 := by
  intro outcomes
  induction outcomes with
  | nil =>
      intro pm attempts h1 h2 h3
      refine ⟨h1, ?_⟩
      exact le_trans (Finset.card_le_card (Finset.subset_insert pm _)) h3
  | cons o rest ih =>
      intro pm attempts h1 h2 h3
      have hpairs : ((attempts ++ [mkAttempt pm (countPairAttempts pm attempts + 1) o]).map
          attemptPair) = attempts.map attemptPair ++ [pm] := by
        simp [attemptPair_mkAttempt]
      have h1' : ∀ q, pairCount q (attempts.map attemptPair ++ [pm]) ≤ 2 := by
        intro q
        rw [pairCount_append, pairCount_singleton]
        by_cases hq : pm = q
        · subst hq
          rw [if_pos rfl]
          omega
        · rw [if_neg hq]
          have := h1 q
          omega
      have hfinup : (attempts.map attemptPair ++ [pm]).toFinset
          = insert pm (attempts.map attemptPair).toFinset := by
        ext x
        simp only [List.toFinset_append, Finset.mem_union, List.mem_toFinset,
          Finset.mem_insert, List.mem_singleton]
        tauto
      have hcard' : (attempts.map attemptPair ++ [pm]).toFinset.card ≤ 3 := by
        rw [hfinup]
        exact h3
      rw [classifyLoop_cons]
      by_cases ho : o = .classified
      · rw [if_pos ho, hpairs]
        exact ⟨h1', hcard'⟩
      · rw [if_neg ho]
        by_cases hfail : (fm.decide ((outcomeTrigger o).getD .PROVIDER_DOWN)
            (attempts ++ [mkAttempt pm (countPairAttempts pm attempts + 1) o])
            profile .INTENT_ROUTING).action = .FAIL
        · rw [if_pos hfail, hpairs]
          exact ⟨h1', hcard'⟩
        · rw [if_neg hfail]
          obtain ⟨p, m, hp, hm, hcases⟩ := decide_not_fail_next fm hA hM
            ((outcomeTrigger o).getD .PROVIDER_DOWN) attempts
            (mkAttempt pm (countPairAttempts pm attempts + 1) o)
            profile .INTENT_ROUTING hfail
          rw [hp, hm]
          rcases hcases with ⟨heq, hcount⟩ | ⟨hmem, hzero, hcard2⟩
          · -- retry: the decision names the recorded pair, i.e. pm itself
            rw [attemptPair_mkAttempt] at heq
            have hp1 : p = pm.1 := congrArg Prod.fst heq
            have hm1 : m = pm.2 := congrArg Prod.snd heq
            have hfst : pyOrStr (some p) pm.1 = pm.1 := by
              rw [pyOrStr_some]
              by_cases hpe : p = ""
              · rw [if_pos hpe]
              · rw [if_neg hpe]
                exact hp1
            have hsnd : pyOrStr (some m) pm.2 = pm.2 := by
              rw [pyOrStr_some]
              by_cases hme : m = ""
              · rw [if_pos hme]
              · rw [if_neg hme]
                exact hm1
            have hkeep : (pyOrStr (some p) pm.1, pyOrStr (some m) pm.2) = pm := by
              rw [hfst, hsnd]
            rw [hkeep]
            apply ih pm (attempts ++ [mkAttempt pm (countPairAttempts pm attempts + 1) o])
            · intro q
              rw [hpairs]
              exact h1' q
            · rw [heq, hpairs] at hcount
              rw [hpairs]
              exact hcount
            · rw [hpairs, hfinup]
              have hmemp : pm ∈ insert pm (attempts.map attemptPair).toFinset :=
                Finset.mem_insert_self pm _
              rw [Finset.insert_eq_self.mpr hmemp]
              exact h3
          · -- fallback: the decision names an untried chain pair
            have hnn := hchain (p, m) hmem
            have hnp : p ≠ "" := hnn.1
            have hnm2 : m ≠ "" := hnn.2
            have hkeep : (pyOrStr (some p) pm.1, pyOrStr (some m) pm.2) = (p, m) := by
              rw [pyOrStr_some, pyOrStr_some, if_neg hnp, if_neg hnm2]
            rw [hkeep]
            apply ih (p, m) (attempts ++ [mkAttempt pm (countPairAttempts pm attempts + 1) o])
            · intro q
              rw [hpairs]
              exact h1' q
            · rw [hpairs]
              rw [hpairs] at hzero
              omega
            · rw [hpairs]
              rw [hpairs] at hcard2
              exact le_trans (Finset.card_insert_le _ _) (by omega)

/-- C1: over any environment behaviour, the attempt history recorded on the
receipt by `_classify_intent` has at most 3 distinct `(provider, model)`
pairs, at most 2 attempts per pair, and at most 6 entries. -/
theorem receipt_models_attempted_caps (fm : FallbackManager)
    (hA : fm.max_attempts_per_model = 2) (hM : fm.max_models_per_request = 3)
    (profile : RoutingProfile)
    (hchain : ∀ pm ∈ fm.getModelChain profile .INTENT_ROUTING, pm.1 ≠ "" ∧ pm.2 ≠ "")
    (outcomes : List AttemptOutcome) (start : String × String) :
    ((modelsAttempted fm profile outcomes start).map attemptPair).toFinset.card ≤ 3 ∧
      (∀ q, pairCount q
          ((modelsAttempted fm profile outcomes start).map attemptPair) ≤ 2) ∧
      (modelsAttempted fm profile outcomes start).length ≤ 6 := by
  have hdef : classifyLoop fm profile outcomes start []
      = modelsAttempted fm profile outcomes start := rfl
  have hinv := classifyLoop_invariant fm hA hM profile hchain outcomes start []
    (by intro q; simp [pairCount]) (by simp [pairCount])
    (by simp)
  rw [hdef] at hinv
  refine ⟨hinv.2, hinv.1, ?_⟩
  have hlen := length_le_two_mul_card_toFinset
    ((modelsAttempted fm profile outcomes start).map attemptPair).length
    ((modelsAttempted fm profile outcomes start).map attemptPair)
    le_rfl hinv.1
  rw [List.length_map] at hlen
  omega

/-- Witness for C1: six consecutive invalid-JSON responses on the default
BALANCED manager exhaust the budget at exactly 6 recorded attempts. -/
theorem receipt_models_attempted_caps_witness :
    (modelsAttempted defaultFallbackManager .BALANCED
        [.invalidJson, .invalidJson, .invalidJson, .invalidJson, .invalidJson,
          .invalidJson, .invalidJson, .invalidJson]
        ("openai", "gpt-4o-mini")).length ≤ 6 :=
  (receipt_models_attempted_caps defaultFallbackManager rfl rfl .BALANCED
    (by decide) _ _).2.2

/-- C3 (amended): the post-skill receipt status is SUCCESS exactly when the
skill reports success; otherwise it is PARTIAL when the merged receipt has
at least one tool call of any status, and FAILED when it has none. (The
code tests list non-emptiness, not per-call success.) -/
theorem skill_status_rule_amended (receipt : Receipt) (sr : SkillResult) :
    (sr.success = true → (applySkillResult receipt sr).status = .SUCCESS) ∧
      (sr.success = false → receipt.tool_calls ++ sr.tool_calls ≠ [] →
        (applySkillResult receipt sr).status = .PARTIAL) ∧
      (sr.success = false → receipt.tool_calls ++ sr.tool_calls = [] →
        (applySkillResult receipt sr).status = .FAILED) := by
  refine ⟨?_, ?_, ?_⟩
  · intro hs
    simp [applySkillResult, hs]
  · intro hs hne
    simp [applySkillResult, hs, List.isEmpty_iff, hne]
  · intro hs hemp
    simp [applySkillResult, hs, List.isEmpty_iff, hemp]

/-- Witness for C3 (amended) at concrete inputs: a failing skill with one
FAILED tool call yields PARTIAL; with no tool calls it yields FAILED. -/
theorem skill_status_rule_amended_witness :
    (applySkillResult (freshReceipt "r1" "do it" none)
        failSkillResultOneCall).status = .PARTIAL ∧
      (applySkillResult (freshReceipt "r2" "do it" none)
        failSkillResultNoCalls).status = .FAILED :=
  ⟨(skill_status_rule_amended _ _).2.1 rfl (by simp [freshReceipt,
      failSkillResultOneCall]),
    (skill_status_rule_amended _ _).2.2 rfl rfl⟩

/-- C3 counterexample to the claim as stated: a skill that fails with a
single FAILED (never-succeeded) tool call produces status PARTIAL, where
the claim demands FAILED because no tool call has status OK. -/
theorem skill_status_rule_counterexample :
    (applySkillResult (freshReceipt "r3" "do it" none)
        failSkillResultOneCall).status = .PARTIAL ∧
      ∀ tc ∈ (applySkillResult (freshReceipt "r3" "do it" none)
        failSkillResultOneCall).tool_calls, tc.status ≠ .OK := by
  constructor
  · rfl
  · intro tc htc
    simp [applySkillResult, freshReceipt, failSkillResultOneCall,
      failedCreateCall] at htc
    rw [htc]
    intro hcon
    cases hcon

/-- C4 (amended): when the skill reports `success = true` the executor sets
the receipt status to SUCCESS, even if every recorded mutation attempt is
PENDING_CONFIRM and no Change was emitted; it never maps this situation to
PENDING_CONFIRM. -/
theorem pending_confirm_maps_to_success (receipt : Receipt) (sr : SkillResult)
    (hs : sr.success = true)
    (_hpend : ∀ tc ∈ sr.tool_calls, tc.status = .PENDING_CONFIRM)
    (_hnochange : sr.changes = []) :
    (applySkillResult receipt sr).status = .SUCCESS := by
  simp [applySkillResult, hs]

/-- Witness for C4 (amended): a plan_day-shaped result whose
CALENDAR_CREATE_BLOCKS call is PENDING_CONFIRM, with no changes, finalizes
to SUCCESS. -/
theorem pending_confirm_maps_to_success_witness :
    (applySkillResult (freshReceipt "r4" "plan my day" none)
        pendingSkillResult).status = .SUCCESS :=
  pending_confirm_maps_to_success _ _ rfl
    (by
      intro tc htc
      simp [pendingSkillResult, pendingBlocksCall] at htc
      rw [htc])
    rfl

/-- C4 counterexample to the claim as stated: with skill success, a pending
mutation call and no Change, the finalized status is SUCCESS, not the
claimed PENDING_CONFIRM. -/
theorem pending_confirm_counterexample :
    (applySkillResult (freshReceipt "r5" "plan my day" none)
        pendingSkillResult).status = .SUCCESS ∧
      (applySkillResult (freshReceipt "r5" "plan my day" none)
        pendingSkillResult).status ≠ .PENDING_CONFIRM := by
  constructor
  · rfl
  · intro h
    cases h

/-- C5 (code evaluated at the failing input): when the MCP dashboard call
succeeds, `TASK_UPDATE` emits one `updated` Change but **no** UndoStep, so
a receipt merging this tool result has 0 undo steps against 1 mutating
Change — the claimed 1:1 pairing `len(R.undo) = #mutating changes` fails.
This contradicts the module's own contract ("All task tools ... provide
undo capabilities", `tasks.py:4`). -/
theorem task_update_mcp_breaks_undo_pairing :
    (taskUpdateExecute (some "t1") [("status", .jstr "done")]
        mcpOkUpdateResponse [] "2026-01-01T00:00:00").success = true ∧
      ((taskUpdateExecute (some "t1") [("status", .jstr "done")]
        mcpOkUpdateResponse [] "2026-01-01T00:00:00").changes.map
          Change.action) = ["updated"] ∧
      (taskUpdateExecute (some "t1") [("status", .jstr "done")]
        mcpOkUpdateResponse [] "2026-01-01T00:00:00").undo_step = none ∧
      (mergeToolResult emptySkillResult
        (taskUpdateExecute (some "t1") [("status", .jstr "done")]
          mcpOkUpdateResponse [] "2026-01-01T00:00:00")).undo_steps.length = 0 ∧
      ((mergeToolResult emptySkillResult
        (taskUpdateExecute (some "t1") [("status", .jstr "done")]
          mcpOkUpdateResponse [] "2026-01-01T00:00:00")).changes.filter
            (fun c => c.action ∈ mutatingActions)).length = 1 :=
  ⟨rfl, rfl, rfl, rfl, rfl⟩

/-- C7 (amended): `_validate_confidence` accepts exactly the values Python
`float(...)` coerces into `[0, 1]` — including numeric strings and
booleans — and rejects coerced values outside the range with OUT_OF_RANGE;
only values `float(...)` cannot coerce (non-numeric strings, `null` aside,
sequences, mappings) get INVALID_TYPE. 0.0 and 1.0 validate through
`validate_intent`. -/
theorem confidence_validation_amended :
    (∀ v conf, pyFloat? v = some conf →
        PyNum.le ⟨0, 0⟩ conf = true → PyNum.le conf ⟨1, 0⟩ = true →
        validateConfidence v = (some conf, [])) ∧
      (∀ v conf, pyFloat? v = some conf →
        (PyNum.le ⟨0, 0⟩ conf = false ∨ PyNum.le conf ⟨1, 0⟩ = false) →
        validateConfidence v = (none,
          [⟨"confidence", "Confidence must be between 0 and 1",
            "OUT_OF_RANGE"⟩])) ∧
      (∀ v, ¬ v = JVal.jnull → pyFloat? v = none →
        validateConfidence v = (none,
          [⟨"confidence", "Confidence must be a number", "INVALID_TYPE"⟩])) ∧
      resultValid (validateIntent
        [("type", .jstr "CAPTURE_TASKS"), ("confidence", .jnum ⟨0, 0⟩)]) = true ∧
      resultValid (validateIntent
        [("type", .jstr "CAPTURE_TASKS"), ("confidence", .jnum ⟨1, 0⟩)]) = true := by
  refine ⟨?_, ?_, ?_, rfl, rfl⟩
  · intro v conf h h0 h1
    cases v with
    | jnull => simp [pyFloat?] at h
    | jbool b =>
        simp only [validateConfidence]
        rw [h]
        exact if_pos ⟨h0, h1⟩
    | jnum n =>
        simp only [validateConfidence]
        rw [h]
        exact if_pos ⟨h0, h1⟩
    | jstr s =>
        simp only [validateConfidence]
        rw [h]
        exact if_pos ⟨h0, h1⟩
    | jarr xs => simp [pyFloat?] at h
    | jobj kvs => simp [pyFloat?] at h
  · intro v conf h hrange
    have hneg : ¬ (PyNum.le ⟨0, 0⟩ conf = true ∧ PyNum.le conf ⟨1, 0⟩ = true) := by
      rintro ⟨ha, hb⟩
      rcases hrange with hc | hc
      · rw [hc] at ha
        cases ha
      · rw [hc] at hb
        cases hb
    cases v with
    | jnull => simp [pyFloat?] at h
    | jbool b =>
        simp only [validateConfidence]
        rw [h]
        exact if_neg hneg
    | jnum n =>
        simp only [validateConfidence]
        rw [h]
        exact if_neg hneg
    | jstr s =>
        simp only [validateConfidence]
        rw [h]
        exact if_neg hneg
    | jarr xs => simp [pyFloat?] at h
    | jobj kvs => simp [pyFloat?] at h
  · intro v hnn h
    cases v with
    | jnull => exact absurd rfl hnn
    | jbool b => simp [pyFloat?] at h
    | jnum n => simp [pyFloat?] at h
    | jstr s =>
        simp only [validateConfidence]
        rw [h]
    | jarr xs =>
        simp only [validateConfidence]
        rw [h]
    | jobj kvs =>
        simp only [validateConfidence]
        rw [h]

/-- Witness for C7 (amended) at concrete values: 0.95 accepted, 1.5
OUT_OF_RANGE, non-numeric string INVALID_TYPE. -/
theorem confidence_validation_amended_witness :
    validateConfidence (.jnum ⟨95, -2⟩) = (some ⟨95, -2⟩, []) ∧
      validateConfidence (.jnum ⟨15, -1⟩) = (none,
        [⟨"confidence", "Confidence must be between 0 and 1",
          "OUT_OF_RANGE"⟩]) ∧
      validateConfidence (.jstr "high") = (none,
        [⟨"confidence", "Confidence must be a number", "INVALID_TYPE"⟩]) :=
  ⟨confidence_validation_amended.1 _ _ rfl rfl rfl,
    confidence_validation_amended.2.1 _ _ rfl (Or.inr rfl),
    confidence_validation_amended.2.2.1 _ (by intro h; cases h) rfl⟩

/-- C7 counterexample to the claim as stated: the numeric string "0.5" and
the boolean `true` are not numbers, yet `validate_intent` accepts both
(Python `float` coerces them), instead of rejecting with INVALID_TYPE. -/
theorem confidence_validation_counterexample :
    resultValid (validateIntent
      [("type", .jstr "CAPTURE_TASKS"), ("confidence", .jstr "0.5")]) = true ∧
      resultValid (validateIntent
        [("type", .jstr "CAPTURE_TASKS"), ("confidence", .jbool true)]) = true :=
  ⟨rfl, rfl⟩

/-- C9 (code evaluated at the failing input): running `capture_tasks` on a
validated intent whose `parameters` carry `tasks = ["x"]` leaves the
intent mutated — `raw_entities` goes from `[]` to `["x"]` through the
`entities = context.intent.raw_entities` alias (`capture_tasks.py:41`,
appends at `capture_tasks.py:50`), contradicting the spec's "Immutable
once validated". -/
theorem capture_tasks_mutates_intent :
    c9Intent.raw_entities = [] ∧
      ((captureTasksExecute c9Intent stubToolExec stubClock).2).raw_entities
        = ["x"] ∧
      ¬ ((captureTasksExecute c9Intent stubToolExec stubClock).2).raw_entities
        = c9Intent.raw_entities := by
  refine ⟨rfl, rfl, ?_⟩
  intro h
  have h2 : (["x"] : List String) = [] := h
  cases h2

/-- Decoding an encoded list element by element. -/
theorem mapM_map_roundtrip {α β : Type} (enc : α → β) (dec : β → Option α)
    (h : ∀ a, dec (enc a) = some a) (l : List α) :
    (l.map enc).mapM dec = some l := by
  induction l with
  | nil => rfl
  | cons a t ih =>
      simp only [List.map_cons, List.mapM_cons, h a, ih]
      rfl

/-- `ModelAttempt` serialization round-trips. -/
theorem attempt_roundtrip (a : ModelAttempt) :
    attemptOfJson (jsonOfAttempt a) = some a := by
  obtain ⟨p, m, n, s, ft, lm⟩ := a
  rcases ft with _ | t
  · rcases lm with _ | ln
    · rfl
    · rfl
  · rcases lm with _ | ln
    · cases t <;> rfl
    · cases t <;> rfl

/-- `Intent` serialization round-trips. -/
theorem intent_roundtrip (i : Intent) :
    intentOfJson (jsonOfIntent i) = some i := by
  obtain ⟨ty, conf, params, ents⟩ := i
  have hents : (ents.map JVal.jstr).mapM asStr = some ents :=
    mapM_map_roundtrip JVal.jstr asStr (fun s => rfl) ents
  have hred : intentOfJson (jsonOfIntent ⟨ty, conf, params, ents⟩)
      = Option.bind ((ents.map JVal.jstr).mapM asStr)
          (fun res => some ⟨ty, conf, params, res⟩) := by
    cases ty <;> rfl
  rw [hred, hents]
  rfl

/-- `ToolCall` serialization round-trips. -/
theorem toolCall_roundtrip (tc : ToolCall) :
    toolCallOfJson (jsonOfToolCall tc) = some tc := by
  obtain ⟨tn, args, st, res, err⟩ := tc
  rcases err with _ | e
  · cases st <;> rfl
  · cases st <;> rfl

/-- `Change` serialization round-trips. -/
theorem change_roundtrip (c : Change) :
    changeOfJson (jsonOfChange c) = some c := by
  obtain ⟨et, eid, act, bef, aft⟩ := c
  rcases bef with _ | b <;> rcases aft with _ | a <;> rfl

/-- `UndoStep` serialization round-trips. -/
theorem undoStep_roundtrip (u : UndoStep) :
    undoStepOfJson (jsonOfUndoStep u) = some u := by
  obtain ⟨tn, args, d⟩ := u
  rfl

/-- `Receipt` serialization round-trips:
`model_validate_json ∘ model_dump_json = id` on the receipt aggregate. -/
theorem receipt_roundtrip (r : Receipt) :
    receiptOfJson (jsonOfReceipt r) = some r := by
  obtain ⟨rid, pid, st, ui, ma, intf, tcs, chs, und, ws, es⟩ := r
  have hma : (ma.map jsonOfAttempt).mapM attemptOfJson = some ma :=
    mapM_map_roundtrip _ _ attempt_roundtrip ma
  have htc : (tcs.map jsonOfToolCall).mapM toolCallOfJson = some tcs :=
    mapM_map_roundtrip _ _ toolCall_roundtrip tcs
  have hch : (chs.map jsonOfChange).mapM changeOfJson = some chs :=
    mapM_map_roundtrip _ _ change_roundtrip chs
  have hun : (und.map jsonOfUndoStep).mapM undoStepOfJson = some und :=
    mapM_map_roundtrip _ _ undoStep_roundtrip und
  have hws : (ws.map JVal.jstr).mapM asStr = some ws :=
    mapM_map_roundtrip JVal.jstr asStr (fun s => rfl) ws
  have hes : (es.map JVal.jstr).mapM asStr = some es :=
    mapM_map_roundtrip JVal.jstr asStr (fun s => rfl) es
  rcases intf with _ | i
  · have hred : receiptOfJson (jsonOfReceipt
        ⟨rid, pid, st, ui, ma, none, tcs, chs, und, ws, es⟩)
        = Option.bind ((ma.map jsonOfAttempt).mapM attemptOfJson)
            (fun xma =>
          Option.bind ((tcs.map jsonOfToolCall).mapM toolCallOfJson)
            (fun xtc =>
          Option.bind ((chs.map jsonOfChange).mapM changeOfJson)
            (fun xch =>
          Option.bind ((und.map jsonOfUndoStep).mapM undoStepOfJson)
            (fun xun =>
          Option.bind ((ws.map JVal.jstr).mapM asStr)
            (fun xws =>
          Option.bind ((es.map JVal.jstr).mapM asStr)
            (fun xes =>
          some ⟨rid, pid, st, ui, xma, none, xtc, xch, xun, xws, xes⟩)))))) := by
      rcases pid with _ | p <;> cases st <;> rfl
    rw [hred, hma, htc, hch, hun, hws, hes]
    rfl
  · have hint : intentOfJson (jsonOfIntent i) = some i := intent_roundtrip i
    have hred : receiptOfJson (jsonOfReceipt
        ⟨rid, pid, st, ui, ma, some i, tcs, chs, und, ws, es⟩)
        = Option.bind ((ma.map jsonOfAttempt).mapM attemptOfJson)
            (fun xma =>
          Option.bind ((intentOfJson (jsonOfIntent i)).map some)
            (fun xint =>
          Option.bind ((tcs.map jsonOfToolCall).mapM toolCallOfJson)
            (fun xtc =>
          Option.bind ((chs.map jsonOfChange).mapM changeOfJson)
            (fun xch =>
          Option.bind ((und.map jsonOfUndoStep).mapM undoStepOfJson)
            (fun xun =>
          Option.bind ((ws.map JVal.jstr).mapM asStr)
            (fun xws =>
          Option.bind ((es.map JVal.jstr).mapM asStr)
            (fun xes =>
          some ⟨rid, pid, st, ui, xma, xint, xtc, xch, xun, xws, xes⟩))))))) := by
      rcases pid with _ | p <;> cases st <;> rfl
    rw [hred, hma, hint, htc, hch, hun, hws, hes]
    rfl

/-- C10: storing a receipt and fetching it back by its id returns the same
receipt, for any prior store contents not already holding that id (the
unique index on `receipt_id` forbids duplicate inserts). -/
theorem receipts_store_create_get (db : List (String × JVal)) (r : Receipt)
    (hfresh : List.lookup r.receipt_id db = none) :
    storeGet (storeCreate db r) r.receipt_id = some r := by
  unfold storeGet storeCreate
  have hlk : List.lookup r.receipt_id (db ++ [(r.receipt_id, jsonOfReceipt r)])
      = some (jsonOfReceipt r) := by
    induction db with
    | nil => simp [List.lookup]
    | cons kv rest ih =>
        simp only [List.lookup, List.cons_append] at hfresh ⊢
        cases hbeq : (r.receipt_id == kv.1) with
        | true =>
            rw [hbeq] at hfresh
            cases hfresh
        | false =>
            rw [hbeq] at hfresh
            exact ih hfresh
  rw [hlk]
  exact receipt_roundtrip r

/-- Witness for C10: the sample receipt survives create-then-get on an
empty store. -/
theorem receipts_store_create_get_witness :
    storeGet (storeCreate [] sampleReceipt) sampleReceipt.receipt_id
      = some sampleReceipt :=
  receipts_store_create_get [] sampleReceipt rfl

/-- C6 (amended): when the stripped input parses as a JSON mapping,
`normalize` succeeds with exactly that mapping and no repairs recorded;
when it parses as a sequence, `normalize` succeeds with the sequence
lifted under "items"; when it parses as any other scalar, the *direct
parse* (`_try_parse`) rejects it with the type error — but `normalize`
then falls through to extraction and repair, which may still succeed. -/
theorem normalize_direct_parse (s : List Char) :
    (∀ entries, jsonParse (pyStripChars s) = some (.jobj entries) →
        normalize s = ⟨true, some entries, none, none⟩) ∧
      (∀ xs, jsonParse (pyStripChars s) = some (.jarr xs) →
        normalize s = ⟨true, some [("items", .jarr xs)], none, none⟩) ∧
      (∀ v, jsonParse (pyStripChars s) = some v → isScalarJVal v = true →
        tryParse s = ⟨false, none, some .unexpectedType, none⟩) := by
  refine ⟨?_, ?_, ?_⟩
  · intro entries h
    have ht : tryParse s = ⟨true, some entries, none, none⟩ := by
      unfold tryParse
      rw [h]
    unfold normalize
    rw [ht]
    rfl
  · intro xs h
    have ht : tryParse s = ⟨true, some [("items", .jarr xs)], none, none⟩ := by
      unfold tryParse
      rw [h]
    unfold normalize
    rw [ht]
    rfl
  · intro v h hsc
    unfold tryParse
    rw [h]
    cases v with
    | jnull => rfl
    | jbool b => rfl
    | jnum n => rfl
    | jstr t => rfl
    | jarr xs => simp [isScalarJVal] at hsc
    | jobj es => simp [isScalarJVal] at hsc

/-- Witness for C6 (amended) at concrete inputs: an object input passes
through, an array is lifted under "items", a bare number fails the direct
parse with the type error. -/
theorem normalize_direct_parse_witness :
    normalize ['{', '}'] = ⟨true, some [], none, none⟩ ∧
      normalize ['[', ']'] = ⟨true, some [("items", .jarr [])], none, none⟩ ∧
      tryParse ['5'] = ⟨false, none, some .unexpectedType, none⟩ :=
  ⟨(normalize_direct_parse ['{', '}']).1 [] rfl,
    (normalize_direct_parse ['[', ']']).2.1 [] rfl,
    (normalize_direct_parse ['5']).2.2 (.jnum ⟨5, 0⟩) rfl rfl⟩

/-- C6 counterexample to the claim as stated: the input `"{}"` parses as a
JSON *string scalar*, so the claim demands a type-error failure, but
`normalize` succeeds — structure scouting pulls the braced text out of the
scalar and parses it as the empty mapping. -/
theorem normalize_scalar_counterexample :
    jsonParse (pyStripChars c6Input) = some (.jstr (String.mk ['{', '}'])) ∧
      normalize c6Input
        = ⟨true, some [], none, some [.extracted_json_structure]⟩ :=
  ⟨rfl, rfl⟩

/-- A whitespace character is not any of the structural characters the
normalizer's later steps look for. -/
theorem isPySpace_not_structural (c : Char) (h : isPySpace c = true) :
    ¬ c = Char.ofNat 96 ∧ ¬ c = '{' ∧ ¬ c = '[' ∧ ¬ c = ',' ∧
      ¬ c = Char.ofNat 39 ∧ ¬ c = '"' := by
  simp only [isPySpace, decide_eq_true_eq] at h
  rcases h with h | h | h | h | h | h <;> subst h <;> decide

/-- Without a backtick there is no fence. -/
theorem afterFirstFence_none (s : List Char)
    (h : ∀ c ∈ s, ¬ c = Char.ofNat 96) : afterFirstFence s = none := by
  induction s with
  | nil => rfl
  | cons c rest ih =>
      have hc := h c (List.mem_cons_self _ _)
      have hpre : List.isPrefixOf fenceChars (c :: rest) = false := by
        simp [fenceChars, List.isPrefixOf]
        intro heq
        exact absurd heq.symm hc
      unfold afterFirstFence
      rw [hpre]
      simp only [Bool.false_eq_true, if_false]
      exact ih (fun d hd => h d (List.mem_cons_of_mem c hd))

/-- Without the character there is no index. -/
theorem idxOf?_none (c : Char) (s : List Char) (h : ∀ d ∈ s, ¬ d = c) :
    idxOf? c s = none := by
  induction s with
  | nil => rfl
  | cons d rest ih =>
      unfold idxOf?
      rw [if_neg (h d (List.mem_cons_self _ _))]
      rw [ih (fun e he => h e (List.mem_cons_of_mem d he))]

/-- Without a comma the trailing-comma pattern cannot match. -/
theorem hasTrailingComma_false (s : List Char) (h : ∀ c ∈ s, ¬ c = ',') :
    hasTrailingComma s = false := by
  induction s with
  | nil => rfl
  | cons c rest ih =>
      unfold hasTrailingComma
      rw [if_neg (h c (List.mem_cons_self _ _))]
      exact ih (fun d hd => h d (List.mem_cons_of_mem c hd))

/-- Without `{` or `,` the unquoted-key pattern cannot match. -/
theorem hasUnquotedKey_false (s : List Char)
    (h : ∀ c ∈ s, ¬ c = '{' ∧ ¬ c = ',') : hasUnquotedKey s = false := by
  induction s with
  | nil => rfl
  | cons c rest ih =>
      unfold hasUnquotedKey
      have hc := h c (List.mem_cons_self _ _)
      rw [if_neg (by rintro (h1 | h2); exact hc.1 h1; exact hc.2 h2)]
      exact ih (fun d hd => h d (List.mem_cons_of_mem c hd))

/-- A fully-whitespace string strips to nothing. -/
theorem pyStripChars_all_ws (s : List Char) (h : ∀ c ∈ s, isPySpace c = true) :
    pyStripChars s = [] := by
  unfold pyStripChars
  have h1 : s.dropWhile isPySpace = [] := List.dropWhile_eq_nil_iff.mpr h
  rw [h1]
  rfl

/-- C8 (amended): on empty or whitespace-only input every step of
`normalize` fails, and the reported failure is the step-5
"failed after repairs" error with an empty repairs list — the step-1 parse
error (which would be the "empty" diagnosis) is not surfaced. -/
theorem normalize_whitespace_amended (s : List Char)
    (h : ∀ c ∈ s, isPySpace c = true) :
    normalize s = ⟨false, none, some (.afterRepairs []), some []⟩ := by
  have hfacts := fun c hc => isPySpace_not_structural c (h c hc)
  have hstrip := pyStripChars_all_ws s h
  have ht : tryParse s = ⟨false, none, some .decodeError, none⟩ := by
    unfold tryParse
    rw [hstrip]
    rfl
  have hmd : extractFromMarkdown s = none := by
    unfold extractFromMarkdown findFenceBodies
    rw [afterFirstFence_none s (fun c hc => (hfacts c hc).1)]
    rfl
  have hobj : braceSpan '{' '}' s = none := by
    unfold braceSpan
    rw [idxOf?_none '{' s (fun c hc => (hfacts c hc).2.1)]
  have harr : braceSpan '[' ']' s = none := by
    unfold braceSpan
    rw [idxOf?_none '[' s (fun c hc => (hfacts c hc).2.2.1)]
  have hfs : findJsonStructure s = none := by
    unfold findJsonStructure
    rw [hobj, harr]
  have hrep : applyRepairs s = (s, []) := by
    unfold applyRepairs
    rw [hasTrailingComma_false s (fun c hc => (hfacts c hc).2.2.2.1)]
    simp only [Bool.false_eq_true, if_false]
    rw [hasUnquotedKey_false s
      (fun c hc => ⟨(hfacts c hc).2.1, (hfacts c hc).2.2.2.1⟩)]
    simp only [Bool.false_eq_true, if_false]
    rw [if_neg]
    rintro ⟨hq, _⟩
    rw [List.any_eq_true] at hq
    obtain ⟨c, hc, hcq⟩ := hq
    exact absurd (of_decide_eq_true hcq) ((hfacts c hc).2.2.2.2.1)
  have h4 : normalizeStep4 s [] = ⟨false, none, some (.afterRepairs []), some []⟩ := by
    unfold normalizeStep4
    rw [hrep]
    dsimp only
    rw [ht]
    rfl
  have h3 : normalizeStep3 s [] = ⟨false, none, some (.afterRepairs []), some []⟩ := by
    unfold normalizeStep3
    rw [hfs]
    exact h4
  unfold normalize
  rw [ht]
  simp only [Bool.false_eq_true, if_false]
  rw [hmd]
  exact h3

/-- Witness for C8 (amended): a space-and-tab input ends in the
after-repairs failure with no repairs recorded. -/
theorem normalize_whitespace_amended_witness :
    normalize [' ', '\t'] = ⟨false, none, some (.afterRepairs []), some []⟩ :=
  normalize_whitespace_amended [' ', '\t'] (by decide)

/-- C8 counterexample to the claim as stated: on the empty input the
failure does not happen in step 1 — the surfaced error is the step-5
after-repairs message (with the empty repairs list), not the direct
parse's decode error, and nothing in it diagnoses emptiness. -/
theorem normalize_empty_counterexample :
    normalize [] = ⟨false, none, some (.afterRepairs []), some []⟩ ∧
      ¬ (normalize []).error = some NormError.decodeError := by
  constructor
  · rfl
  · intro h
    have h2 : some (NormError.afterRepairs []) = some NormError.decodeError := h
    simp at h2

end Atlas
